import Mathlib

/-!
# Weekly enquiry trend of `src/components/AdminDashboard.js`

A shallow embedding of the "Inquiry Trend Calculation" effect of the admin
dashboard (lines 110-146 of `AdminDashboard.js`) and of the `Date` operations it
calls, followed by the properties proved about it.

Modelling conventions.

* A valid `Date` is its time value: an integer number of milliseconds since the
  epoch (UTC).  An invalid `Date` (time value `NaN`) is `none`.  The range limit
  of `TimeClip` (8.64e15 ms) is not modelled: time values are unbounded integers.
* The host time zone is a fixed offset `tz` in milliseconds (`LocalTZA`), as for
  zones without daylight saving changes (e.g. `Asia/Kolkata`, `tz = 19800000`).
* The `Date` built-ins follow the ECMAScript definitions (`Day`, `TimeWithinDay`,
  `DayFromYear`, `YearFromTime`, `MonthFromTime`, `DateFromTime`, `WeekDay`,
  `MakeDay`, `MakeDate`, `LocalTime`, `UTC`).
* The reference instant `now`, which the source hardcodes as
  `new Date("2025-12-22")`, is a parameter of the general definitions; the
  hardcoded value is `nowFixed`.
-/

namespace AdminDashboard

/-! ## ECMAScript time arithmetic -/

/-- Milliseconds per day, `24 * 60 * 60 * 1000`. -/
def msPerDay : Int := 24 * 60 * 60 * 1000

/-- ECMAScript `Day(t) = floor(t / msPerDay)`. -/
def Day (t : Int) : Int := t / msPerDay

/-- ECMAScript `TimeWithinDay(t) = t modulo msPerDay`. -/
def TimeWithinDay (t : Int) : Int := t % msPerDay

/-- ECMAScript `DaysInYear(y)`. -/
def DaysInYear (y : Int) : Int :=
  if y % 4 ≠ 0 then 365
  else if y % 100 ≠ 0 then 366
  else if y % 400 ≠ 0 then 365
  else 366

/-- ECMAScript `DayFromYear(y)`: the day number of the first day of year `y`. -/
def DayFromYear (y : Int) : Int :=
  365 * (y - 1970) + (y - 1969) / 4 - (y - 1901) / 100 + (y - 1601) / 400

/-- ECMAScript `TimeFromYear(y)`. -/
def TimeFromYear (y : Int) : Int := msPerDay * DayFromYear y

/-- Year containing day number `d`, computed on the 400-year cycle that starts
on 1 January 1601 (day number `-134774`). -/
def yearFromDay (d : Int) : Int :=
  let z := d + 134774
  let n400 := z / 146097
  let r := z % 146097
  let n100 := if r / 36524 < 3 then r / 36524 else 3
  let r2 := r - n100 * 36524
  let n4 := r2 / 1461
  let r3 := r2 % 1461
  let n1 := if r3 / 365 < 3 then r3 / 365 else 3
  1601 + 400 * n400 + 100 * n100 + 4 * n4 + n1

/-- ECMAScript `YearFromTime(t)`: the largest `y` with `TimeFromYear(y) ≤ t`. -/
def YearFromTime (t : Int) : Int := yearFromDay (Day t)

/-- ECMAScript `InLeapYear(t)`: `1` in a leap year, `0` otherwise. -/
def InLeapYear (t : Int) : Int :=
  if DaysInYear (YearFromTime t) = 366 then 1 else 0

/-- ECMAScript `DayWithinYear(t)`. -/
def DayWithinYear (t : Int) : Int := Day t - DayFromYear (YearFromTime t)

/-- Day within the year on which month `m` (0 = January) starts, `leap` being
`InLeapYear`. -/
def monthStart (m : Int) (leap : Int) : Int :=
  if m ≤ 0 then 0
  else if m = 1 then 31
  else if m = 2 then 59 + leap
  else if m = 3 then 90 + leap
  else if m = 4 then 120 + leap
  else if m = 5 then 151 + leap
  else if m = 6 then 181 + leap
  else if m = 7 then 212 + leap
  else if m = 8 then 243 + leap
  else if m = 9 then 273 + leap
  else if m = 10 then 304 + leap
  else 334 + leap

/-- Month (0..11) of the day `d` within a year, `leap` being `InLeapYear`. -/
def monthOfDayInYear (d : Int) (leap : Int) : Int :=
  if d < 31 then 0
  else if d < 59 + leap then 1
  else if d < 90 + leap then 2
  else if d < 120 + leap then 3
  else if d < 151 + leap then 4
  else if d < 181 + leap then 5
  else if d < 212 + leap then 6
  else if d < 243 + leap then 7
  else if d < 273 + leap then 8
  else if d < 304 + leap then 9
  else if d < 334 + leap then 10
  else 11

/-- ECMAScript `MonthFromTime(t)`, 0 = January .. 11 = December. -/
def MonthFromTime (t : Int) : Int := monthOfDayInYear (DayWithinYear t) (InLeapYear t)

/-- ECMAScript `DateFromTime(t)`: the day of the month, 1..31. -/
def DateFromTime (t : Int) : Int :=
  DayWithinYear t - monthStart (MonthFromTime t) (InLeapYear t) + 1

/-- ECMAScript `WeekDay(t)`: 0 = Sunday .. 6 = Saturday. -/
def WeekDay (t : Int) : Int := (Day t + 4) % 7

/-- ECMAScript `MakeDay(year, month, date)`: the day number of the first day of
month `month mod 12` of year `year + floor(month / 12)`, plus `date - 1`. -/
def MakeDay (year month date : Int) : Int :=
  let ym := year + month / 12
  let mn := month % 12
  DayFromYear ym + monthStart mn (if DaysInYear ym = 366 then 1 else 0) + date - 1

/-- ECMAScript `MakeDate(day, time)`. -/
def MakeDate (day time : Int) : Int := day * msPerDay + time

/-- ECMAScript `LocalTime(t)` for a fixed zone offset `tz`. -/
def LocalTime (tz t : Int) : Int := t + tz

/-- ECMAScript `UTC(t)` for a fixed zone offset `tz`. -/
def UTC (tz t : Int) : Int := t - tz

/-! ## `Date.prototype` methods used by the dashboard -/

/-- `Date.prototype.getDay`: weekday of the local time, 0 = Sunday. -/
def getDay (tz t : Int) : Int := WeekDay (LocalTime tz t)

/-- `Date.prototype.getDate`: day of the month of the local time. -/
def getDate (tz t : Int) : Int := DateFromTime (LocalTime tz t)

/-- `Date.prototype.setDate(dt)`: the new time value of a date whose time value
is `t`. -/
def setDate (tz t dt : Int) : Int :=
  let lt := LocalTime tz t
  let newDate := MakeDate (MakeDay (YearFromTime lt) (MonthFromTime lt) dt) (TimeWithinDay lt)
  UTC tz newDate

/-- `Date.parse` of a date-only ISO string `YYYY-MM-DD` (read as UTC midnight);
`month` is 1-based as in the string. -/
def parseISODate (year month date : Int) : Int :=
  MakeDate (MakeDay year (month - 1) date) 0

/-! ## Data model -/

/-- One element of the `enquiries` state (`mappedEnquiries`, lines 81-92).
`fullDate` is `new Date(enq.dateOfEnquiry)`: `some t` for a valid date with time
value `t`, `none` for an invalid date. -/
structure Enquiry where
  id : String
  name : String
  phone : String
  product : String
  date : String
  fullDate : Option Int
deriving DecidableEq, Repr

/-- One element of `computedData` / `lineChartData` (lines 138-142). -/
structure DayBucket where
  day : String
  thisWeek : Nat
  lastWeek : Nat
deriving DecidableEq, Repr

/-! ## The inquiry trend calculation (lines 110-146) -/

/-- The hardcoded reference instant, `new Date("2025-12-22")` (line 112). -/
def nowFixed : Int := parseISODate 2025 12 22

/-- The back-offset `dayOfWeek === 0 ? 6 : dayOfWeek - 1` of line 115. -/
def backOffset (dayOfWeek : Int) : Int := if dayOfWeek = 0 then 6 else dayOfWeek - 1

/-- Time value of `thisWeekStart` (lines 113-115): a copy of `now` on which
`setDate(now.getDate() - backOffset)` is called. -/
def thisWeekStart (tz now : Int) : Int :=
  let dayOfWeek := getDay tz now
  setDate tz now (getDate tz now - backOffset dayOfWeek)

/-- Time value of `lastWeekStart` (line 116). -/
def lastWeekStart (tz now : Int) : Int :=
  thisWeekStart tz now - 7 * 24 * 60 * 60 * 1000

/-- Time value of `thisWeekEnd` (line 128). -/
def thisWeekEnd (tz now : Int) : Int :=
  thisWeekStart tz now + 7 * 24 * 60 * 60 * 1000

/-- Time value of `lastWeekEnd` (line 129). -/
def lastWeekEnd (tz now : Int) : Int :=
  lastWeekStart tz now + 7 * 24 * 60 * 60 * 1000

/-- The weekday labels `days` (line 118). -/
def days : List String := ["Mon", "Tue", "Wed", "Thu", "Fri", "Sat", "Sun"]

/-- The remapping `(getDay + 6) % 7` of line 126 on a weekday number. -/
def adjustDay (d : Int) : Int := (d + 6) % 7

/-- The `adjustedDayIndex` of line 126: `(enqDate.getDay() + 6) % 7`, which is
`NaN` (`none`) for an invalid date. -/
def adjustedDayIndex (tz : Int) (enqDate : Option Int) : Option Int :=
  enqDate.map fun t => adjustDay (getDay tz t)

/-- The comparison `enqDate >= bound` on dates; false when `enqDate` is invalid. -/
def dateGE (enqDate : Option Int) (bound : Int) : Bool :=
  match enqDate with
  | some t => decide (bound ≤ t)
  | none => false

/-- The comparison `enqDate < bound` on dates; false when `enqDate` is invalid. -/
def dateLT (enqDate : Option Int) (bound : Int) : Bool :=
  match enqDate with
  | some t => decide (t < bound)
  | none => false

/-- The statement `counts[idx]++` on a counts array.  In the loop `idx` is an
index of the 7-element array whenever the statement runs (see
`adjustDay_getDay_range`); for a `NaN` index (`none`) or an index outside the
array, which the loop never produces, the elements are left as they are. -/
def increment (counts : List Nat) (idx : Option Int) : List Nat :=
  match idx with
  | some i => if 0 ≤ i then counts.set i.toNat (counts.getD i.toNat 0 + 1) else counts
  | none => counts

/-- The body of the `forEach` callback (lines 124-135) as a step on the pair
`(thisWeekCounts, lastWeekCounts)`; `twStart` and `lwStart` are the time values
of `thisWeekStart` and `lastWeekStart`. -/
def countEnquiry (tz twStart lwStart : Int) (counts : List Nat × List Nat) (enq : Enquiry) :
    List Nat × List Nat :=
  let enqDate := enq.fullDate
  let adjusted := adjustedDayIndex tz enqDate
  let twEnd := twStart + 7 * 24 * 60 * 60 * 1000
  let lwEnd := lwStart + 7 * 24 * 60 * 60 * 1000
  if dateGE enqDate twStart && dateLT enqDate twEnd then
    (increment counts.1 adjusted, counts.2)
  else if dateGE enqDate lwStart && dateLT enqDate lwEnd then
    (counts.1, increment counts.2 adjusted)
  else
    counts

/-- The arrays `(thisWeekCounts, lastWeekCounts)` after the `forEach` of lines
120-136: both start as `new Array(7).fill(0)`. -/
def weekCounts (tz now : Int) (enquiries : List Enquiry) : List Nat × List Nat :=
  enquiries.foldl (countEnquiry tz (thisWeekStart tz now) (lastWeekStart tz now))
    (List.replicate 7 0, List.replicate 7 0)

/-- The array `computedData` (lines 138-142) built from the two counts arrays. -/
def computedData (counts : List Nat × List Nat) : List DayBucket :=
  days.enum.map fun p =>
    { day := p.2, thisWeek := counts.1.getD p.1 0, lastWeek := counts.2.getD p.1 0 }

/-- The buckets computed by the effect body for reference instant `now`. -/
def aggregate (tz now : Int) (enquiries : List Enquiry) : List DayBucket :=
  computedData (weekCounts tz now enquiries)

/-- The effect of lines 110-146 as a step on the `lineChartData` state, for a
reference instant `now`: it runs only when `enquiries.length > 0`. -/
def trendEffectAt (tz now : Int) (enquiries : List Enquiry) (lineChartData : List DayBucket) :
    List DayBucket :=
  if enquiries.length > 0 then aggregate tz now enquiries else lineChartData

/-- The effect of lines 110-146 with the hardcoded reference instant. -/
def trendEffect (tz : Int) (enquiries : List Enquiry) (lineChartData : List DayBucket) :
    List DayBucket :=
  trendEffectAt tz nowFixed enquiries lineChartData

/-- Initial value of the `lineChartData` state (line 22). -/
def initialLineChartData : List DayBucket := []

/-! ## Specification-side predicates -/

/-- The event's timestamp lies in `[start, start + 7 days)`. -/
def inWindow (start : Int) (e : Enquiry) : Bool :=
  match e.fullDate with
  | some t => decide (start ≤ t) && decide (t < start + 7 * 24 * 60 * 60 * 1000)
  | none => false

/-- The event's remapped weekday `(getDay + 6) mod 7` is bucket `i`. -/
def onWeekday (tz : Int) (i : Nat) (e : Enquiry) : Bool :=
  match e.fullDate with
  | some t => decide (adjustDay (getDay tz t) = (i : Int))
  | none => false

/-- Indicator of a Boolean condition as a count. -/
def ind (b : Bool) : Nat := if b then 1 else 0

/-! ## Chart input (lines 151-200 and 352) -/

/-- The expression `lineChartOptions.xaxis.categories` (line 171). -/
def xaxisCategories (lineChartData : List DayBucket) : List String :=
  if lineChartData.length > 0 then lineChartData.map (fun d => d.day)
  else ["Mon", "Tue", "Wed", "Thu", "Fri", "Sat", "Sun"]

/-- One entry of `lineChartSeries`. -/
structure Series where
  name : String
  data : List Nat
deriving DecidableEq, Repr

/-- The array `lineChartSeries` (lines 197-200). -/
def lineChartSeries (lineChartData : List DayBucket) : List Series :=
  [ { name := "This Week",
      data := if lineChartData.length > 0 then lineChartData.map (fun d => d.thisWeek)
              else List.replicate 7 0 },
    { name := "Last Week",
      data := if lineChartData.length > 0 then lineChartData.map (fun d => d.lastWeek)
              else List.replicate 7 0 } ]

/-- The condition `isMounted && lineChartData.length > 0` under which the chart
is rendered (line 352); otherwise the text "No recent data" is shown. -/
def chartShown (isMounted : Bool) (lineChartData : List DayBucket) : Bool :=
  isMounted && decide (lineChartData.length > 0)

/-- States of `lineChartData` reachable for a reference instant `now`: the
initial state, and any state the effect produces from a reachable state when
`enquiries` changes. -/
inductive ReachableAt (tz now : Int) : List DayBucket → Prop
  | init : ReachableAt tz now initialLineChartData
  | effect (enquiries : List Enquiry) (s : List DayBucket) :
      ReachableAt tz now s → ReachableAt tz now (trendEffectAt tz now enquiries s)

/-! ## The counting loop with explicit bounds checks -/

/-- The statement `counts[idx]++` read as a checked array update: `none` when
`idx` is `NaN` or is not an index of `counts`. -/
def incrementChecked (counts : List Nat) (idx : Option Int) : Option (List Nat) :=
  match idx with
  | some i =>
    if 0 ≤ i ∧ i.toNat < counts.length then
      some (counts.set i.toNat (counts.getD i.toNat 0 + 1))
    else none
  | none => none

/-- The body of the `forEach` callback (lines 124-135) with checked array
updates. -/
def countEnquiryChecked (tz twStart lwStart : Int) (counts : List Nat × List Nat)
    (enq : Enquiry) : Option (List Nat × List Nat) :=
  let enqDate := enq.fullDate
  let adjusted := adjustedDayIndex tz enqDate
  let twEnd := twStart + 7 * 24 * 60 * 60 * 1000
  let lwEnd := lwStart + 7 * 24 * 60 * 60 * 1000
  if dateGE enqDate twStart && dateLT enqDate twEnd then
    (incrementChecked counts.1 adjusted).map fun c => (c, counts.2)
  else if dateGE enqDate lwStart && dateLT enqDate lwEnd then
    (incrementChecked counts.2 adjusted).map fun c => (counts.1, c)
  else
    some counts

/-- The `forEach` of lines 120-136 with checked array updates: `none` as soon as
one update would miss the 7-element array. -/
def weekCountsChecked (tz now : Int) (enquiries : List Enquiry) :
    Option (List Nat × List Nat) :=
  enquiries.foldlM (countEnquiryChecked tz (thisWeekStart tz now) (lastWeekStart tz now))
    (List.replicate 7 0, List.replicate 7 0)

/-! ## The worked example of the specification -/

/-- Three enquiries whose dates are `new Date("2025-12-22")`,
`new Date("2025-12-23")` and `new Date("2025-12-15")`. -/
def exampleEnquiries : List Enquiry :=
  [ { id := "1", name := "A", phone := "1", product := "P", date := "22 Dec 2025",
      fullDate := some (parseISODate 2025 12 22) },
    { id := "2", name := "B", phone := "2", product := "Q", date := "23 Dec 2025",
      fullDate := some (parseISODate 2025 12 23) },
    { id := "3", name := "C", phone := "3", product := "R", date := "15 Dec 2025",
      fullDate := some (parseISODate 2025 12 15) } ]

/-- The event's timestamp lies in `[start, start + 7 days)`, in the `i`-th
24-hour slot of that window: `floor((t - start) / 24h) = i`. -/
def inDaySlot (start : Int) (i : Nat) (e : Enquiry) : Bool :=
  match e.fullDate with
  | some t =>
    decide (start ≤ t) && decide (t < start + 7 * 24 * 60 * 60 * 1000)
      && decide ((t - start) / msPerDay = (i : Int))
  | none => false

/-! ## `fetchDashboardData` (lines 28-101) -/

/-- A banner record of the `GET /banners` response; only `status` is read by the
dashboard. -/
structure ApiBanner where
  id : String
  bannerName : String
  image : String
  status : String
deriving DecidableEq, Repr

/-- An enquiry record of the `GET /enquiries` response. -/
structure ApiEnquiry where
  id : String
  enquirerName : String
  phone : String
  productName : String
  dateOfEnquiry : String
deriving DecidableEq, Repr

/-- Body of the categories and of the products response, as far as it is read:
the optional number `total` and the length of the array `data` (`none` when
`data` is missing). -/
structure CountBody where
  total : Option Nat
  dataLength : Option Nat
deriving DecidableEq, Repr

/-- Body of the banners response: an object with a `data` array, a bare array,
or anything else. -/
inductive BannersBody where
  | wrapped (data : List ApiBanner)
  | bare (banners : List ApiBanner)
  | other
deriving DecidableEq, Repr

/-- Body of the enquiries response: its `data` array (`none` when missing). -/
structure EnquiriesBody where
  data : Option (List ApiEnquiry)
deriving DecidableEq, Repr

/-- The `ok` flags of the four responses, in the order of the `Promise.all`. -/
structure Responses where
  categoriesOk : Bool
  productsOk : Bool
  allBannersOk : Bool
  enquiriesOk : Bool
deriving DecidableEq, Repr

/-- The four parsed bodies, in the order of the second `Promise.all`. -/
structure Bodies where
  categories : CountBody
  products : CountBody
  allBannersData : BannersBody
  allEnquiries : EnquiriesBody
deriving DecidableEq, Repr

/-- The component state (lines 14-22). -/
structure DashboardState where
  isMounted : Bool
  categoriesCount : Nat
  productsCount : Nat
  activeBanners : Nat
  inactiveBanners : Nat
  enquiries : List Enquiry
  loading : Bool
  error : Option String
  lineChartData : List DayBucket
deriving DecidableEq, Repr

/-- The initial component state (lines 14-22). -/
def initialState : DashboardState :=
  { isMounted := false, categoriesCount := 0, productsCount := 0, activeBanners := 0,
    inactiveBanners := 0, enquiries := [], loading := true, error := none,
    lineChartData := [] }

/-- The expression `allBannersData.data || allBannersData` (line 68), `none` when
the value is not an array (the `filter` call of line 69 then throws). -/
def allBannersOf (allBannersData : BannersBody) : Option (List ApiBanner) :=
  match allBannersData with
  | .wrapped data => some data
  | .bare banners => some banners
  | .other => none

/-- The count `activeBannersCount` of line 69. -/
def activeBannersCount (allBanners : List ApiBanner) : Nat :=
  (allBanners.filter fun banner => banner.status == "active").length

/-- The count `inactiveBannersCount` of line 70. -/
def inactiveBannersCount (allBanners : List ApiBanner) : Nat :=
  (allBanners.filter fun banner => banner.status == "inactive").length

/-- The expression `body.total || body.data.length` (lines 75-76); the error is
the `TypeError` raised when `data` is missing. -/
def countOf (typeError : String → String) (body : CountBody) : Except String Nat :=
  let dataLength : Except String Nat :=
    match body.dataLength with
    | some n => .ok n
    | none => .error (typeError "data.length")
  match body.total with
  | some n => if n ≠ 0 then .ok n else dataLength
  | none => dataLength

/-- The mapping of lines 81-92; `parseDate` is `new Date(string)` and
`formatDate` is `toLocaleDateString("en-IN", ...)`. -/
def mapEnquiry (parseDate : String → Option Int) (formatDate : Option Int → String)
    (enq : ApiEnquiry) : Enquiry :=
  { id := enq.id, name := enq.enquirerName, phone := enq.phone, product := enq.productName,
    date := formatDate (parseDate enq.dateOfEnquiry),
    fullDate := parseDate enq.dateOfEnquiry }

/-- The `try` block of `fetchDashboardData` (lines 30-94): the state after the
state updates that ran, and the message of the error thrown, if any. `fetched`
is the outcome of the first `Promise.all` (a rejection message or the four
responses), `parsed` the outcome of the second one (a rejection message or the
four bodies); `typeError` gives the message of the `TypeError` raised on a
malformed body. -/
def tryBlock (parseDate : String → Option Int) (formatDate : Option Int → String)
    (typeError : String → String) (s : DashboardState)
    (fetched : Except String Responses) (parsed : Except String Bodies) :
    DashboardState × Option String :=
  let s := { s with loading := true, error := none }
  match fetched with
  | .error msg => (s, some msg)
  | .ok res =>
    if !res.categoriesOk || !res.productsOk || !res.allBannersOk || !res.enquiriesOk then
      (s, some "One or more fetches failed")
    else
      match parsed with
      | .error msg => (s, some msg)
      | .ok bodies =>
        match allBannersOf bodies.allBannersData with
        | none => (s, some (typeError "allBanners.filter"))
        | some allBanners =>
          match countOf typeError bodies.categories with
          | .error msg => (s, some msg)
          | .ok categoriesCount =>
            let s := { s with categoriesCount := categoriesCount }
            match countOf typeError bodies.products with
            | .error msg => (s, some msg)
            | .ok productsCount =>
              let s := { s with productsCount := productsCount,
                                activeBanners := activeBannersCount allBanners,
                                inactiveBanners := inactiveBannersCount allBanners }
              match bodies.allEnquiries.data with
              | none => (s, some (typeError "allEnquiries.data.map"))
              | some data =>
                ({ s with enquiries := data.map (mapEnquiry parseDate formatDate) }, none)

/-- The function `fetchDashboardData` (lines 28-101) as a step on the component
state: the `try` block, then `catch` (which stores the message of the error) and
`finally` (which clears `loading`). -/
def fetchDashboardData (parseDate : String → Option Int) (formatDate : Option Int → String)
    (typeError : String → String) (s : DashboardState)
    (fetched : Except String Responses) (parsed : Except String Bodies) : DashboardState :=
  let r := tryBlock parseDate formatDate typeError s fetched parsed
  let s := match r.2 with
    | some message => { r.1 with error := some message }
    | none => r.1
  { s with loading := false }

/-! ## The banner and category lists
(`src/components/BannerListComponent.js`, `src/components/CategoryListComponent.js`)

The two components hold the same state and share, line for line, the filter,
`handleEdit`, `closeModal` and `openAddModal`; these are embedded once. They
differ in the fetch mapping and in `handleSave`, which are embedded per
component. JavaScript strings are modelled as `String`; the host function
`toLowerCase` is a parameter, and so are `API_BASE` and the message of a
`TypeError`. -/

/-- An element of the `banners` / `categories` state (the objects built at lines
34-39 of the banner list and 25-30 of the category list). -/
structure Item where
  id : String
  name : String
  image : String
  active : Bool
deriving DecidableEq, Repr

/-- The `formData` state. -/
structure FormData where
  name : String
  image : String
  active : Bool
deriving DecidableEq, Repr

/-- The object `{ name: "", image: "", active: true }`: the initial `formData`
and the value set by `closeModal` and `openAddModal`. -/
def defaultFormData : FormData := { name := "", image := "", active := true }

/-- A category record of the `GET /categories` response. -/
structure ApiCategory where
  id : String
  categoryName : String
  image : String
  status : String
deriving DecidableEq, Repr

/-- The component state of either list (lines 9-20 of the banner list, 9-16 of
the category list): `items` is `banners` / `categories`, `editing` is
`editingBanner` / `editingCategory` (`none` for `null`). -/
structure ListState where
  items : List Item
  loading : Bool
  error : Option String
  searchTerm : String
  filterStatus : String
  showAddModal : Bool
  editing : Option Item
  formData : FormData
deriving DecidableEq, Repr

/-- The initial state of either list component. -/
def initialListState : ListState :=
  { items := [], loading := true, error := none, searchTerm := "", filterStatus := "all",
    showAddModal := false, editing := none, formData := defaultFormData }

/-- The method `String.prototype.includes`: `searchString` occurs in `s` as a
contiguous substring. -/
def includes (s searchString : String) : Bool :=
  decide (searchString.data <:+: s.data)

/-- The filter callback of lines 55-64 (banner list) and 45-54 (category list). -/
def matchesFilter (toLowerCase : String → String) (searchTerm filterStatus : String)
    (item : Item) : Bool :=
  let matchesSearch := includes (toLowerCase item.name) (toLowerCase searchTerm)
  let matchesStatus :=
    filterStatus == "all" ||
    (filterStatus == "active" && item.active) ||
    (filterStatus == "inactive" && !item.active)
  matchesSearch && matchesStatus

/-- The list `filteredBanners` (lines 55-64 of the banner list). -/
def filteredBanners (toLowerCase : String → String) (banners : List Item)
    (searchTerm filterStatus : String) : List Item :=
  banners.filter (matchesFilter toLowerCase searchTerm filterStatus)

/-- The list `filteredCategories` (lines 45-54 of the category list). -/
def filteredCategories (toLowerCase : String → String) (categories : List Item)
    (searchTerm filterStatus : String) : List Item :=
  categories.filter (matchesFilter toLowerCase searchTerm filterStatus)

/-- The handler `handleEdit` (lines 66-74 / 56-64). -/
def handleEdit (item : Item) (s : ListState) : ListState :=
  { s with editing := some item,
           formData := { name := item.name, image := item.image, active := item.active },
           showAddModal := true }

/-- The handler `closeModal` (lines 120-124 / 113-117). -/
def closeModal (s : ListState) : ListState :=
  { s with showAddModal := false, editing := none,
           formData := { name := "", image := "", active := true } }

/-- The handler `openAddModal` (lines 126-130 / 119-123). -/
def openAddModal (s : ListState) : ListState :=
  { s with editing := none, formData := { name := "", image := "", active := true },
           showAddModal := true }

/-- Outcome of one `fetch` of a list followed by `res.json()`: the request is
rejected, the response is not `ok`, parsing is rejected, or the body is parsed
and its `data` member is an array of records or is missing. -/
inductive FetchOutcome (α : Type) where
  | rejected (message : String)
  | notOk
  | badJson (message : String)
  | body (data : Option (List α))
deriving DecidableEq, Repr

/-- Outcome of the `fetch` issued by `handleSave` or `handleDelete`: rejected
with a message, or a response with its `ok` flag. -/
inductive SaveOutcome where
  | rejected (message : String)
  | response (ok : Bool)
deriving DecidableEq, Repr

/-- A request handed to `fetch`: method, URL and the object passed to
`JSON.stringify` (`none` when there is no body). -/
structure Request (β : Type) where
  method : String
  url : String
  body : Option β
deriving DecidableEq, Repr

/-- What a handler did: the resulting state, the requests issued in order and
the messages passed to `alert`. -/
structure Outcome (β : Type) where
  state : ListState
  requests : List (Request β)
  alerts : List String
deriving DecidableEq, Repr

/-- ECMAScript `WhiteSpace` and `LineTerminator` code points, the characters
removed by `String.prototype.trim`. -/
def isTrimmed (c : Char) : Bool :=
  let n := c.toNat
  n = 0x09 || n = 0x0A || n = 0x0B || n = 0x0C || n = 0x0D || n = 0x20 || n = 0xA0 ||
  n = 0x1680 || (0x2000 ≤ n && n ≤ 0x200A) || n = 0x2028 || n = 0x2029 || n = 0x202F ||
  n = 0x205F || n = 0x3000 || n = 0xFEFF

/-- The method `String.prototype.trim`. -/
def trim (s : String) : String :=
  String.mk (((s.data.dropWhile isTrimmed).reverse.dropWhile isTrimmed).reverse)

/-- The mapping of lines 34-39 of the banner list. -/
def BannerListComponent.mapBanner (ban : ApiBanner) : Item :=
  { id := ban.id, name := ban.bannerName, image := ban.image, active := ban.status == "active" }

/-- The function `fetchBanners` (lines 26-46) as a step on the state. -/
def BannerListComponent.fetchBanners (typeError : String → String) (s : ListState)
    (outcome : FetchOutcome ApiBanner) : ListState :=
  let s := { s with loading := true, error := none }
  let s := match outcome with
    | .rejected message => { s with error := some message }
    | .notOk => { s with error := some "Fetch failed" }
    | .badJson message => { s with error := some message }
    | .body none => { s with error := some (typeError "data.map") }
    | .body (some data) => { s with items := data.map BannerListComponent.mapBanner }
  { s with loading := false }

/-- The request body built by `handleSave` of the banner list (lines 94-98). -/
structure BannerBody where
  bannerName : String
  image : String
  status : String
deriving DecidableEq, Repr

/-- The handler `handleSave` of the banner list (lines 88-119). `save` is the
outcome of the `PUT` / `POST`, `refetch` the outcome of the `fetchBanners` call
started after a successful save. -/
def BannerListComponent.handleSave (apiBase : String) (typeError : String → String)
    (s : ListState) (save : SaveOutcome) (refetch : FetchOutcome ApiBanner) :
    Outcome BannerBody :=
  if s.formData.name = "" ∨ s.formData.image = "" then
    { state := s, requests := [], alerts := ["Please fill name and upload image"] }
  else
    let body : BannerBody :=
      { bannerName := trim s.formData.name,
        image := s.formData.image,
        status := if s.formData.active then "active" else "inactive" }
    let request : Request BannerBody :=
      match s.editing with
      | some editingBanner =>
        { method := "PUT", url := apiBase ++ "/banners/" ++ editingBanner.id, body := some body }
      | none => { method := "POST", url := apiBase ++ "/banners", body := some body }
    match save with
    | .rejected message => { state := s, requests := [request], alerts := [message] }
    | .response false => { state := s, requests := [request], alerts := ["Save failed"] }
    | .response true =>
      { state := closeModal (BannerListComponent.fetchBanners typeError s refetch),
        requests := [request, { method := "GET", url := apiBase ++ "/banners", body := none }],
        alerts := [] }

/-- The handler `handleDelete` of the banner list (lines 76-86); `confirmed` is
the answer to `confirm`. -/
def BannerListComponent.handleDelete (typeError : String → String) (s : ListState)
    (confirmed : Bool) (outcome : SaveOutcome) (refetch : FetchOutcome ApiBanner) : ListState :=
  if confirmed then
    match outcome with
    | .response true => BannerListComponent.fetchBanners typeError s refetch
    | _ => s
  else s

/-- The mapping of lines 25-30 of the category list. -/
def CategoryListComponent.mapCategory (cat : ApiCategory) : Item :=
  { id := cat.id, name := cat.categoryName, image := cat.image, active := cat.status == "active" }

/-- The function `fetchCategories` (lines 18-37) as a step on the state. -/
def CategoryListComponent.fetchCategories (typeError : String → String) (s : ListState)
    (outcome : FetchOutcome ApiCategory) : ListState :=
  let s := { s with loading := true, error := none }
  let s := match outcome with
    | .rejected message => { s with error := some message }
    | .notOk => { s with error := some "Fetch failed" }
    | .badJson message => { s with error := some message }
    | .body none => { s with error := some (typeError "data.map") }
    | .body (some data) => { s with items := data.map CategoryListComponent.mapCategory }
  { s with loading := false }

/-- The request body built by `handleSave` of the category list (lines 86-90). -/
structure CategoryBody where
  categoryName : String
  image : String
  status : String
deriving DecidableEq, Repr

/-- The handler `handleSave` of the category list (lines 80-111). -/
def CategoryListComponent.handleSave (apiBase : String) (typeError : String → String)
    (s : ListState) (save : SaveOutcome) (refetch : FetchOutcome ApiCategory) :
    Outcome CategoryBody :=
  if s.formData.name = "" ∨ s.formData.image = "" then
    { state := s, requests := [], alerts := ["Please fill in all fields"] }
  else
    let body : CategoryBody :=
      { categoryName := s.formData.name,
        image := s.formData.image,
        status := if s.formData.active then "active" else "inactive" }
    let request : Request CategoryBody :=
      match s.editing with
      | some editingCategory =>
        { method := "PUT", url := apiBase ++ "/categories/" ++ editingCategory.id,
          body := some body }
      | none => { method := "POST", url := apiBase ++ "/categories", body := some body }
    match save with
    | .rejected message => { state := s, requests := [request], alerts := [message] }
    | .response false => { state := s, requests := [request], alerts := ["Save failed"] }
    | .response true =>
      { state := closeModal (CategoryListComponent.fetchCategories typeError s refetch),
        requests := [request, { method := "GET", url := apiBase ++ "/categories", body := none }],
        alerts := [] }

/-- The handler `handleDelete` of the category list (lines 66-78). -/
def CategoryListComponent.handleDelete (typeError : String → String) (s : ListState)
    (confirmed : Bool) (outcome : SaveOutcome) (refetch : FetchOutcome ApiCategory) :
    ListState :=
  if confirmed then
    match outcome with
    | .response true => CategoryListComponent.fetchCategories typeError s refetch
    | _ => s
  else s

/-- The events of a list component: the handlers with the outcomes of their
requests, the completion of the fetch started on mount, and the state setters
wired to the controls. `editForm` is `setFormData` called by the modal, which is
rendered only while `showAddModal` holds (lines 320-328 / 311-319). -/
inductive Action (α : Type) where
  | fetched (outcome : FetchOutcome α)
  | setSearchTerm (value : String)
  | setFilterStatus (value : String)
  | openAddModal
  | handleEdit (item : Item)
  | closeModal
  | editForm (formData : FormData)
  | handleSave (save : SaveOutcome) (refetch : FetchOutcome α)
  | handleDelete (confirmed : Bool) (outcome : SaveOutcome) (refetch : FetchOutcome α)

/-- One event of the banner list as a step on the state. -/
def BannerListComponent.step (apiBase : String) (typeError : String → String) (s : ListState)
    (action : Action ApiBanner) : ListState :=
  match action with
  | .fetched outcome => BannerListComponent.fetchBanners typeError s outcome
  | .setSearchTerm value => { s with searchTerm := value }
  | .setFilterStatus value => { s with filterStatus := value }
  | .openAddModal => openAddModal s
  | .handleEdit item => handleEdit item s
  | .closeModal => closeModal s
  | .editForm formData => if s.showAddModal then { s with formData := formData } else s
  | .handleSave save refetch =>
    (BannerListComponent.handleSave apiBase typeError s save refetch).state
  | .handleDelete confirmed outcome refetch =>
    BannerListComponent.handleDelete typeError s confirmed outcome refetch

/-- One event of the category list as a step on the state. -/
def CategoryListComponent.step (apiBase : String) (typeError : String → String)
    (s : ListState) (action : Action ApiCategory) : ListState :=
  match action with
  | .fetched outcome => CategoryListComponent.fetchCategories typeError s outcome
  | .setSearchTerm value => { s with searchTerm := value }
  | .setFilterStatus value => { s with filterStatus := value }
  | .openAddModal => openAddModal s
  | .handleEdit item => handleEdit item s
  | .closeModal => closeModal s
  | .editForm formData => if s.showAddModal then { s with formData := formData } else s
  | .handleSave save refetch =>
    (CategoryListComponent.handleSave apiBase typeError s save refetch).state
  | .handleDelete confirmed outcome refetch =>
    CategoryListComponent.handleDelete typeError s confirmed outcome refetch

/-- The state of the banner list after a sequence of events from the initial
state. -/
def BannerListComponent.run (apiBase : String) (typeError : String → String)
    (actions : List (Action ApiBanner)) : ListState :=
  actions.foldl (BannerListComponent.step apiBase typeError) initialListState

/-- The state of the category list after a sequence of events from the initial
state. -/
def CategoryListComponent.run (apiBase : String) (typeError : String → String)
    (actions : List (Action ApiCategory)) : ListState :=
  actions.foldl (CategoryListComponent.step apiBase typeError) initialListState

/-- The modal state invariant: the modal is shown, or else the editing target is
`null` and `formData` is the default object. -/
def modalInvariant (s : ListState) : Prop :=
  s.showAddModal = true ∨ (s.editing = none ∧ s.formData = defaultFormData)

/-! ## Auxiliary lemmas: time arithmetic -/

set_option maxHeartbeats 1000000 in
theorem yearFromDay_spec (d : Int) :
    DayFromYear (yearFromDay d) ≤ d ∧ d < DayFromYear (yearFromDay d + 1) := by
  simp only [DayFromYear, yearFromDay]
  generalize hz : d + 134774 = z
  have hd : d = z - 134774 := by omega
  subst hd
  generalize ha : z / 146097 = a
  generalize hr : z % 146097 = r
  have hr0 : 0 ≤ r ∧ r < 146097 := by omega
  have hzr : z = 146097 * a + r := by omega
  clear ha hr hz
  subst hzr
  generalize hq : r / 36524 = q
  have hq0 : 0 ≤ q ∧ q ≤ 4 := by omega
  generalize hj : (if q < 3 then q else 3) = j
  have hj0 : 0 ≤ j ∧ j ≤ 3 := by omega
  generalize hr2 : r - j * 36524 = r2
  have hr20 : 0 ≤ r2 ∧ r2 ≤ 36524 := by omega
  have hr2' : r = 36524 * j + r2 := by omega
  have hjr : j < 3 → r2 < 36524 := by omega
  clear hq hj hr2 hq0
  subst hr2'
  generalize hb : r2 / 1461 = b
  generalize hr3 : r2 % 1461 = r3
  have hb0 : 0 ≤ b ∧ b ≤ 24 := by omega
  have hr30 : 0 ≤ r3 ∧ r3 < 1461 := by omega
  have hr2b : r2 = 1461 * b + r3 := by omega
  clear hb hr3
  subst hr2b
  generalize hp : r3 / 365 = p
  generalize hi : (if p < 3 then p else 3) = i
  have hi0 : 0 ≤ i ∧ i ≤ 3 := by omega
  have hi1 : 365 * i ≤ r3 := by omega
  have hi2 : i < 3 → r3 < 365 * (i + 1) := by omega
  clear hp hi
  obtain ⟨hj1, hj2⟩ := hj0
  obtain ⟨hi3, hi4⟩ := hi0
  interval_cases j <;> interval_cases i <;> omega

theorem YearFromTime_spec (t : Int) :
    TimeFromYear (YearFromTime t) ≤ t ∧ t < TimeFromYear (YearFromTime t + 1) := by
  obtain ⟨h1, h2⟩ := yearFromDay_spec (Day t)
  simp only [TimeFromYear, YearFromTime]
  generalize DayFromYear (yearFromDay (Day t)) = lo at h1
  generalize DayFromYear (yearFromDay (Day t) + 1) = hi at h2
  simp only [Day, msPerDay] at h1 h2 ⊢
  omega

theorem monthOfDayInYear_range (d leap : Int) :
    0 ≤ monthOfDayInYear d leap ∧ monthOfDayInYear d leap ≤ 11 := by
  rw [monthOfDayInYear]
  omega

theorem MakeDay_of_time (t k : Int) :
    MakeDay (YearFromTime t) (MonthFromTime t) (DateFromTime t - k) = Day t - k := by
  have hm := monthOfDayInYear_range (DayWithinYear t) (InLeapYear t)
  have h1 : MonthFromTime t / 12 = 0 := by unfold MonthFromTime; omega
  have h2 : MonthFromTime t % 12 = MonthFromTime t := by unfold MonthFromTime; omega
  simp only [MakeDay, h1, h2, add_zero, DateFromTime, DayWithinYear, InLeapYear]
  omega

theorem setDate_getDate_sub (tz t k : Int) :
    setDate tz t (getDate tz t - k) = t - k * msPerDay := by
  simp only [setDate, getDate, MakeDay_of_time, MakeDate, UTC, LocalTime, Day, TimeWithinDay,
    msPerDay]
  omega

theorem thisWeekStart_eq (tz now : Int) :
    thisWeekStart tz now = now - backOffset (getDay tz now) * msPerDay := by
  simp only [thisWeekStart, setDate_getDate_sub]

theorem getDay_range (tz t : Int) : 0 ≤ getDay tz t ∧ getDay tz t ≤ 6 := by
  unfold getDay WeekDay
  omega

theorem getDay_sub_days (tz t k : Int) :
    getDay tz (t - k * msPerDay) = (getDay tz t - k) % 7 := by
  simp only [getDay, WeekDay, LocalTime, Day, msPerDay]
  omega

/-! ## Auxiliary lemmas: the counting loop -/

theorem adjustDay_getDay_range (tz t : Int) :
    0 ≤ adjustDay (getDay tz t) ∧ adjustDay (getDay tz t) < 7 := by
  unfold adjustDay
  omega

theorem increment_length (counts : List Nat) (idx : Option Int) :
    (increment counts idx).length = counts.length := by
  unfold increment
  split
  · split <;> simp
  · rfl

theorem increment_getD (counts : List Nat) (j : Int) (i : Nat) (hj : 0 ≤ j)
    (hlen : j.toNat < counts.length) :
    (increment counts (some j)).getD i 0 = counts.getD i 0 + if j = (i : Int) then 1 else 0 := by
  simp only [increment, hj, if_true]
  by_cases h : j = (i : Int)
  · subst h
    simp only [Int.toNat_ofNat] at hlen ⊢
    simp [List.getD_eq_getElem?_getD, List.getElem?_set, hlen]
  · have hne : j.toNat ≠ i := by omega
    simp [List.getD_eq_getElem?_getD, List.getElem?_set, hne, h]

theorem countEnquiry_spec (tz twStart : Int) (a b : List Nat) (e : Enquiry)
    (ha : a.length = 7) (hb : b.length = 7) :
    (countEnquiry tz twStart (twStart - 7 * 24 * 60 * 60 * 1000) (a, b) e).1.length = 7 ∧
    (countEnquiry tz twStart (twStart - 7 * 24 * 60 * 60 * 1000) (a, b) e).2.length = 7 ∧
    ∀ i : Nat,
      (countEnquiry tz twStart (twStart - 7 * 24 * 60 * 60 * 1000) (a, b) e).1.getD i 0
        = a.getD i 0 + ind (inWindow twStart e && onWeekday tz i e) ∧
      (countEnquiry tz twStart (twStart - 7 * 24 * 60 * 60 * 1000) (a, b) e).2.getD i 0
        = b.getD i 0 + ind (inWindow (twStart - 7 * 24 * 60 * 60 * 1000) e && onWeekday tz i e) := by
  cases hfd : e.fullDate with
  | none =>
    simp [countEnquiry, dateGE, dateLT, inWindow, onWeekday, hfd, ha, hb, ind]
  | some t =>
    obtain ⟨hj0, hj7⟩ := adjustDay_getDay_range tz t
    simp only [countEnquiry, dateGE, dateLT, inWindow, onWeekday, hfd, adjustedDayIndex, Option.map,
      Bool.and_eq_true, decide_eq_true_eq, ind]
    generalize adjustDay (getDay tz t) = j at hj0 hj7 ⊢
    have hla : j.toNat < a.length := by omega
    have hlb : j.toNat < b.length := by omega
    by_cases h1 : twStart ≤ t ∧ t < twStart + 7 * 24 * 60 * 60 * 1000
    · rw [if_pos h1]
      refine ⟨by simp [increment_length, ha], hb, fun i => ⟨?_, ?_⟩⟩
      · simp only [increment_getD _ _ _ hj0 hla]
        split_ifs <;> omega
      · simp only
        split_ifs <;> omega
    · rw [if_neg h1]
      by_cases h2 : twStart - 7 * 24 * 60 * 60 * 1000 ≤ t ∧
          t < twStart - 7 * 24 * 60 * 60 * 1000 + 7 * 24 * 60 * 60 * 1000
      · rw [if_pos h2]
        refine ⟨ha, by simp [increment_length, hb], fun i => ⟨?_, ?_⟩⟩
        · simp only
          split_ifs <;> omega
        · simp only [increment_getD _ _ _ hj0 hlb]
          split_ifs <;> omega
      · rw [if_neg h2]
        refine ⟨ha, hb, fun i => ⟨?_, ?_⟩⟩ <;> simp only <;> split_ifs <;> omega

theorem foldl_countEnquiry_spec (tz twStart : Int) (es : List Enquiry) :
    ∀ a b : List Nat, a.length = 7 → b.length = 7 →
    (es.foldl (countEnquiry tz twStart (twStart - 7 * 24 * 60 * 60 * 1000)) (a, b)).1.length = 7 ∧
    (es.foldl (countEnquiry tz twStart (twStart - 7 * 24 * 60 * 60 * 1000)) (a, b)).2.length = 7 ∧
    ∀ i : Nat,
      (es.foldl (countEnquiry tz twStart (twStart - 7 * 24 * 60 * 60 * 1000)) (a, b)).1.getD i 0
        = a.getD i 0 + es.countP (fun e => inWindow twStart e && onWeekday tz i e) ∧
      (es.foldl (countEnquiry tz twStart (twStart - 7 * 24 * 60 * 60 * 1000)) (a, b)).2.getD i 0
        = b.getD i 0 +
          es.countP (fun e => inWindow (twStart - 7 * 24 * 60 * 60 * 1000) e && onWeekday tz i e) := by
  induction es with
  | nil => intro a b ha hb; simp [ha, hb]
  | cons e es ih =>
    intro a b ha hb
    obtain ⟨h1, h2, h3⟩ := countEnquiry_spec tz twStart a b e ha hb
    rw [List.foldl_cons]
    generalize countEnquiry tz twStart (twStart - 7 * 24 * 60 * 60 * 1000) (a, b) e = r at h1 h2 h3 ⊢
    obtain ⟨a1, b1⟩ := r
    obtain ⟨k1, k2, k3⟩ := ih a1 b1 h1 h2
    refine ⟨k1, k2, fun i => ?_⟩
    rw [(k3 i).1, (k3 i).2, (h3 i).1, (h3 i).2, List.countP_cons, List.countP_cons]
    simp only [ind]
    omega

theorem weekCounts_spec (tz now : Int) (es : List Enquiry) :
    (weekCounts tz now es).1.length = 7 ∧ (weekCounts tz now es).2.length = 7 ∧
    ∀ i : Nat, i < 7 →
      (weekCounts tz now es).1.getD i 0
        = es.countP (fun e => inWindow (thisWeekStart tz now) e && onWeekday tz i e) ∧
      (weekCounts tz now es).2.getD i 0
        = es.countP (fun e => inWindow (lastWeekStart tz now) e && onWeekday tz i e) := by
  obtain ⟨h1, h2, h3⟩ := foldl_countEnquiry_spec tz (thisWeekStart tz now) es
    (List.replicate 7 0) (List.replicate 7 0) (by simp) (by simp)
  refine ⟨h1, h2, fun i hi => ?_⟩
  have hz : (List.replicate 7 0).getD i 0 = 0 := by
    interval_cases i <;> rfl
  have := h3 i
  rw [hz, Nat.zero_add, Nat.zero_add] at this
  exact this

theorem computedData_eq (c : List Nat × List Nat) :
    computedData c =
      [⟨"Mon", c.1.getD 0 0, c.2.getD 0 0⟩, ⟨"Tue", c.1.getD 1 0, c.2.getD 1 0⟩,
       ⟨"Wed", c.1.getD 2 0, c.2.getD 2 0⟩, ⟨"Thu", c.1.getD 3 0, c.2.getD 3 0⟩,
       ⟨"Fri", c.1.getD 4 0, c.2.getD 4 0⟩, ⟨"Sat", c.1.getD 5 0, c.2.getD 5 0⟩,
       ⟨"Sun", c.1.getD 6 0, c.2.getD 6 0⟩] := rfl

theorem trendEffectAt_of_ne_nil (tz now : Int) (es : List Enquiry) (prev : List DayBucket)
    (h : es ≠ []) : trendEffectAt tz now es prev = aggregate tz now es := by
  have : es.length > 0 := List.length_pos.mpr h
  simp [trendEffectAt, this]

theorem trendEffectAt_nil (tz now : Int) (prev : List DayBucket) :
    trendEffectAt tz now [] prev = prev := by
  simp [trendEffectAt]

theorem weekday_indicator_sum (tz start : Int) (e : Enquiry) :
    ind (inWindow start e && onWeekday tz 0 e) + ind (inWindow start e && onWeekday tz 1 e) +
    ind (inWindow start e && onWeekday tz 2 e) + ind (inWindow start e && onWeekday tz 3 e) +
    ind (inWindow start e && onWeekday tz 4 e) + ind (inWindow start e && onWeekday tz 5 e) +
    ind (inWindow start e && onWeekday tz 6 e) = ind (inWindow start e) := by
  cases hfd : e.fullDate with
  | none => simp [inWindow, onWeekday, hfd, ind]
  | some t =>
    obtain ⟨hj0, hj7⟩ := adjustDay_getDay_range tz t
    simp only [inWindow, onWeekday, hfd, ind]
    generalize adjustDay (getDay tz t) = j at hj0 hj7 ⊢
    cases decide (start ≤ t) && decide (t < start + 7 * 24 * 60 * 60 * 1000)
    · simp
    · interval_cases j <;> simp

theorem countP_weekday_sum (tz start : Int) (es : List Enquiry) :
    es.countP (fun e => inWindow start e && onWeekday tz 0 e) +
    es.countP (fun e => inWindow start e && onWeekday tz 1 e) +
    es.countP (fun e => inWindow start e && onWeekday tz 2 e) +
    es.countP (fun e => inWindow start e && onWeekday tz 3 e) +
    es.countP (fun e => inWindow start e && onWeekday tz 4 e) +
    es.countP (fun e => inWindow start e && onWeekday tz 5 e) +
    es.countP (fun e => inWindow start e && onWeekday tz 6 e) = es.countP (inWindow start) := by
  induction es with
  | nil => simp
  | cons e es ih =>
    have h := weekday_indicator_sum tz start e
    simp only [List.countP_cons, ind] at h ⊢
    omega

theorem aggregate_thisWeek_sum (tz now : Int) (es : List Enquiry) :
    ((aggregate tz now es).map DayBucket.thisWeek).sum
      = es.countP (inWindow (thisWeekStart tz now)) := by
  obtain ⟨_, _, h⟩ := weekCounts_spec tz now es
  rw [← countP_weekday_sum tz (thisWeekStart tz now) es, aggregate, computedData_eq]
  simp only [List.map_cons, List.map_nil, List.sum_cons, List.sum_nil,
    (h 0 (by decide)).1, (h 1 (by decide)).1, (h 2 (by decide)).1, (h 3 (by decide)).1,
    (h 4 (by decide)).1, (h 5 (by decide)).1, (h 6 (by decide)).1]
  omega

theorem aggregate_lastWeek_sum (tz now : Int) (es : List Enquiry) :
    ((aggregate tz now es).map DayBucket.lastWeek).sum
      = es.countP (inWindow (lastWeekStart tz now)) := by
  obtain ⟨_, _, h⟩ := weekCounts_spec tz now es
  rw [← countP_weekday_sum tz (lastWeekStart tz now) es, aggregate, computedData_eq]
  simp only [List.map_cons, List.map_nil, List.sum_cons, List.sum_nil,
    (h 0 (by decide)).2, (h 1 (by decide)).2, (h 2 (by decide)).2, (h 3 (by decide)).2,
    (h 4 (by decide)).2, (h 5 (by decide)).2, (h 6 (by decide)).2]
  omega

theorem inWindow_disjoint (tz now : Int) (e : Enquiry) :
    ¬ (inWindow (thisWeekStart tz now) e = true ∧ inWindow (lastWeekStart tz now) e = true) := by
  cases hfd : e.fullDate with
  | none => simp [inWindow, hfd]
  | some t =>
    simp only [inWindow, hfd, lastWeekStart, Bool.and_eq_true, decide_eq_true_eq]
    omega

theorem countP_windows (tz now : Int) (es : List Enquiry) :
    es.countP (inWindow (thisWeekStart tz now)) + es.countP (inWindow (lastWeekStart tz now)) +
      es.countP (fun e => !inWindow (thisWeekStart tz now) e && !inWindow (lastWeekStart tz now) e)
      = es.length := by
  induction es with
  | nil => simp
  | cons e es ih =>
    have hd := inWindow_disjoint tz now e
    simp only [List.countP_cons, List.length_cons]
    cases h1 : inWindow (thisWeekStart tz now) e <;> cases h2 : inWindow (lastWeekStart tz now) e <;>
      simp_all <;> omega

theorem getDay_thisWeekStart (tz now : Int) : getDay tz (thisWeekStart tz now) = 1 := by
  have hr := getDay_range tz now
  rw [thisWeekStart_eq, getDay_sub_days, backOffset]
  omega

theorem backOffset_getDay_range (tz now : Int) :
    0 ≤ backOffset (getDay tz now) ∧ backOffset (getDay tz now) ≤ 6 := by
  have hr := getDay_range tz now
  rw [backOffset]
  omega

theorem set_succ_sum (l : List Nat) (n : Nat) :
    (l.set n (l.getD n 0 + 1)).sum = l.sum + if n < l.length then 1 else 0 := by
  induction l generalizing n with
  | nil => simp
  | cons x xs ih =>
    cases n with
    | zero => simp; omega
    | succ n =>
      have := ih n
      simp only [List.getD_eq_getElem?_getD] at this
      simp only [List.set_cons_succ, List.sum_cons, List.getD_eq_getElem?_getD,
        List.getElem?_cons_succ, List.length_cons, Nat.add_lt_add_iff_right, this]
      omega

theorem increment_sum_le (l : List Nat) (idx : Option Int) :
    l.sum ≤ (increment l idx).sum ∧ (increment l idx).sum ≤ l.sum + 1 := by
  unfold increment
  split
  · split
    · rw [set_succ_sum]; split <;> omega
    · omega
  · omega

theorem increment_getD_mono (l : List Nat) (idx : Option Int) (i : Nat) :
    l.getD i 0 ≤ (increment l idx).getD i 0 := by
  unfold increment
  split
  · split
    · rename_i j hj
      simp only [List.getD_eq_getElem?_getD, List.getElem?_set]
      by_cases h : j.toNat = i
      · subst h
        by_cases hl : j.toNat < l.length
        · simp [hl]
        · simp [hl, List.getElem?_eq_none (Nat.le_of_not_lt hl)]
      · simp [h]
    · exact Nat.le_refl _
  · exact Nat.le_refl _

theorem countEnquiry_cases (tz twStart lwStart : Int) (a b : List Nat) (e : Enquiry) :
    (inWindow twStart e = true ∧
      countEnquiry tz twStart lwStart (a, b) e
        = (increment a (adjustedDayIndex tz e.fullDate), b)) ∨
    (inWindow twStart e = false ∧ inWindow lwStart e = true ∧
      countEnquiry tz twStart lwStart (a, b) e
        = (a, increment b (adjustedDayIndex tz e.fullDate))) ∨
    (inWindow twStart e = false ∧ inWindow lwStart e = false ∧
      countEnquiry tz twStart lwStart (a, b) e = (a, b)) := by
  cases hfd : e.fullDate with
  | none => simp [countEnquiry, inWindow, dateGE, dateLT, hfd]
  | some t =>
    simp only [countEnquiry, inWindow, dateGE, dateLT, hfd]
    cases h1 : decide (twStart ≤ t) && decide (t < twStart + 7 * 24 * 60 * 60 * 1000) <;>
      cases h2 : decide (lwStart ≤ t) && decide (t < lwStart + 7 * 24 * 60 * 60 * 1000) <;> simp

theorem aggregate_getElem (tz now : Int) (es : List Enquiry) (i : Nat) (hi : i < 7) :
    (aggregate tz now es)[i]? =
      some { day := days.getD i "",
             thisWeek := es.countP fun e => inWindow (thisWeekStart tz now) e && onWeekday tz i e,
             lastWeek := es.countP fun e => inWindow (lastWeekStart tz now) e && onWeekday tz i e } := by
  obtain ⟨_, _, h⟩ := weekCounts_spec tz now es
  rw [aggregate, computedData_eq]
  have h' := h i hi
  rw [← h'.1, ← h'.2]
  interval_cases i <;> rfl

theorem aggregate_congr (tz now : Int) (es es' : List Enquiry)
    (h : ∀ i : Nat, i < 7 →
      es.countP (fun e => inWindow (thisWeekStart tz now) e && onWeekday tz i e)
        = es'.countP (fun e => inWindow (thisWeekStart tz now) e && onWeekday tz i e) ∧
      es.countP (fun e => inWindow (lastWeekStart tz now) e && onWeekday tz i e)
        = es'.countP (fun e => inWindow (lastWeekStart tz now) e && onWeekday tz i e)) :
    aggregate tz now es = aggregate tz now es' := by
  obtain ⟨_, _, k⟩ := weekCounts_spec tz now es
  obtain ⟨_, _, k'⟩ := weekCounts_spec tz now es'
  rw [aggregate, aggregate, computedData_eq, computedData_eq]
  simp only [(k 0 (by decide)).1, (k 1 (by decide)).1, (k 2 (by decide)).1, (k 3 (by decide)).1,
    (k 4 (by decide)).1, (k 5 (by decide)).1, (k 6 (by decide)).1,
    (k 0 (by decide)).2, (k 1 (by decide)).2, (k 2 (by decide)).2, (k 3 (by decide)).2,
    (k 4 (by decide)).2, (k 5 (by decide)).2, (k 6 (by decide)).2,
    (k' 0 (by decide)).1, (k' 1 (by decide)).1, (k' 2 (by decide)).1, (k' 3 (by decide)).1,
    (k' 4 (by decide)).1, (k' 5 (by decide)).1, (k' 6 (by decide)).1,
    (k' 0 (by decide)).2, (k' 1 (by decide)).2, (k' 2 (by decide)).2, (k' 3 (by decide)).2,
    (k' 4 (by decide)).2, (k' 5 (by decide)).2, (k' 6 (by decide)).2,
    (h 0 (by decide)).1, (h 1 (by decide)).1, (h 2 (by decide)).1, (h 3 (by decide)).1,
    (h 4 (by decide)).1, (h 5 (by decide)).1, (h 6 (by decide)).1,
    (h 0 (by decide)).2, (h 1 (by decide)).2, (h 2 (by decide)).2, (h 3 (by decide)).2,
    (h 4 (by decide)).2, (h 5 (by decide)).2, (h 6 (by decide)).2]

theorem inWindow_eq_true_iff (start : Int) (e : Enquiry) :
    inWindow start e = true ↔
      ∃ t, e.fullDate = some t ∧ start ≤ t ∧ t < start + 7 * 24 * 60 * 60 * 1000 := by
  cases hfd : e.fullDate with
  | none => simp [inWindow, hfd]
  | some t => simp [inWindow, hfd]

theorem inWindow_at_start (tz now : Int) (e : Enquiry)
    (h : e.fullDate = some (thisWeekStart tz now)) :
    inWindow (thisWeekStart tz now) e = true ∧ inWindow (lastWeekStart tz now) e = false ∧
    onWeekday tz 0 e = true := by
  refine ⟨?_, ?_, ?_⟩
  · rw [inWindow_eq_true_iff]
    exact ⟨_, h, by omega, by omega⟩
  · rw [← Bool.not_eq_true, inWindow_eq_true_iff]
    rintro ⟨t, ht, h1, h2⟩
    rw [h] at ht
    cases ht
    unfold lastWeekStart at h2
    omega
  · simp [onWeekday, h, getDay_thisWeekStart, adjustDay]

theorem inWindow_at_end (tz now : Int) (e : Enquiry)
    (h : e.fullDate = some (thisWeekEnd tz now)) :
    inWindow (thisWeekStart tz now) e = false ∧ inWindow (lastWeekStart tz now) e = false := by
  refine ⟨?_, ?_⟩
  · rw [← Bool.not_eq_true, inWindow_eq_true_iff]
    rintro ⟨t, ht, h1, h2⟩
    rw [h] at ht
    cases ht
    unfold thisWeekEnd at h2
    omega
  · rw [← Bool.not_eq_true, inWindow_eq_true_iff]
    rintro ⟨t, ht, h1, h2⟩
    rw [h] at ht
    cases ht
    unfold thisWeekEnd lastWeekStart at h2
    omega

/-! ## Auxiliary lemmas: further properties of the effect -/

theorem aggregate_length (tz now : Int) (es : List Enquiry) :
    (aggregate tz now es).length = 7 ∧
    (aggregate tz now es).map (fun d => d.day)
      = ["Mon", "Tue", "Wed", "Thu", "Fri", "Sat", "Sun"] := by
  rw [aggregate, computedData_eq]
  exact ⟨rfl, rfl⟩

theorem aggregate_nil (tz now : Int) :
    aggregate tz now [] =
      [⟨"Mon", 0, 0⟩, ⟨"Tue", 0, 0⟩, ⟨"Wed", 0, 0⟩, ⟨"Thu", 0, 0⟩, ⟨"Fri", 0, 0⟩,
       ⟨"Sat", 0, 0⟩, ⟨"Sun", 0, 0⟩] := rfl

theorem aggregate_perm (tz now : Int) (es es' : List Enquiry) (h : es.Perm es') :
    aggregate tz now es = aggregate tz now es' :=
  aggregate_congr tz now es es' fun _ _ => ⟨h.countP_eq _, h.countP_eq _⟩

theorem reachableAt_shape (tz now : Int) (s : List DayBucket) (h : ReachableAt tz now s) :
    s = [] ∨ (s.length = 7 ∧
      s.map (fun d => d.day) = ["Mon", "Tue", "Wed", "Thu", "Fri", "Sat", "Sun"]) := by
  induction h with
  | init => exact Or.inl rfl
  | effect enquiries s _ ih =>
    by_cases hne : enquiries = []
    · subst hne
      rw [trendEffectAt_nil]
      exact ih
    · rw [trendEffectAt_of_ne_nil tz now enquiries s hne]
      exact Or.inr (aggregate_length tz now enquiries)

theorem countEnquiryChecked_eq (tz twStart lwStart : Int) (a b : List Nat) (e : Enquiry)
    (ha : a.length = 7) (hb : b.length = 7) :
    countEnquiryChecked tz twStart lwStart (a, b) e
      = some (countEnquiry tz twStart lwStart (a, b) e) := by
  cases hfd : e.fullDate with
  | none => simp [countEnquiryChecked, countEnquiry, dateGE, dateLT, hfd]
  | some t =>
    obtain ⟨hj0, hj7⟩ := adjustDay_getDay_range tz t
    have hja : (adjustDay (getDay tz t)).toNat < a.length := by omega
    have hjb : (adjustDay (getDay tz t)).toNat < b.length := by omega
    simp only [countEnquiryChecked, countEnquiry, hfd, adjustedDayIndex, Option.map_some',
      incrementChecked, increment, hj0, hja, hjb, and_self, if_true]
    split_ifs <;> rfl

theorem foldlM_countEnquiryChecked (tz twStart lwStart : Int) (es : List Enquiry) :
    ∀ a b : List Nat, a.length = 7 → b.length = 7 →
      es.foldlM (countEnquiryChecked tz twStart lwStart) (a, b)
        = some (es.foldl (countEnquiry tz twStart lwStart) (a, b)) ∧
      (es.foldl (countEnquiry tz twStart lwStart) (a, b)).1.length = 7 ∧
      (es.foldl (countEnquiry tz twStart lwStart) (a, b)).2.length = 7 := by
  induction es with
  | nil => intro a b ha hb; exact ⟨rfl, ha, hb⟩
  | cons e es ih =>
    intro a b ha hb
    have hlen : (countEnquiry tz twStart lwStart (a, b) e).1.length = 7 ∧
        (countEnquiry tz twStart lwStart (a, b) e).2.length = 7 := by
      rcases countEnquiry_cases tz twStart lwStart a b e with
        ⟨_, hr⟩ | ⟨_, _, hr⟩ | ⟨_, _, hr⟩ <;> rw [hr] <;>
        simp only [increment_length, ha, hb, and_self]
    rw [List.foldlM_cons, countEnquiryChecked_eq tz twStart lwStart a b e ha hb, List.foldl_cons]
    generalize countEnquiry tz twStart lwStart (a, b) e = r at hlen
    obtain ⟨a1, b1⟩ := r
    exact ih a1 b1 hlen.1 hlen.2

theorem slot_eq_weekday (tz start t : Int) (i : Nat)
    (hmon : getDay tz start = 1) (hmid : TimeWithinDay (LocalTime tz start) = 0)
    (h1 : start ≤ t) (h2 : t < start + 7 * 24 * 60 * 60 * 1000) :
    adjustDay (getDay tz t) = (i : Int) ↔ (t - start) / msPerDay = (i : Int) := by
  simp only [getDay, WeekDay, Day, LocalTime, TimeWithinDay, adjustDay, msPerDay] at *
  omega

theorem inDaySlot_eq (tz start : Int) (i : Nat) (e : Enquiry)
    (hmon : getDay tz start = 1) (hmid : TimeWithinDay (LocalTime tz start) = 0) :
    (inWindow start e && onWeekday tz i e) = inDaySlot start i e := by
  cases hfd : e.fullDate with
  | none => simp [inWindow, onWeekday, inDaySlot, hfd]
  | some t =>
    simp only [inWindow, onWeekday, inDaySlot, hfd]
    by_cases h1 : start ≤ t
    · by_cases h2 : t < start + 7 * 24 * 60 * 60 * 1000
      · have := slot_eq_weekday tz start t i hmon hmid h1 h2
        rw [decide_eq_true h1, decide_eq_true h2, decide_eq_decide.mpr this]
      · rw [decide_eq_false h2]
        simp only [Bool.and_false, Bool.false_and]
    · rw [decide_eq_false h1]
      simp only [Bool.false_and]

theorem lastWeekStart_monday (tz now : Int) :
    getDay tz (lastWeekStart tz now) = 1 ∧
    TimeWithinDay (LocalTime tz (lastWeekStart tz now))
      = TimeWithinDay (LocalTime tz (thisWeekStart tz now)) := by
  have hm := getDay_thisWeekStart tz now
  have hs := getDay_sub_days tz (thisWeekStart tz now) 7
  have e : lastWeekStart tz now = thisWeekStart tz now - 7 * msPerDay := by
    simp only [lastWeekStart, msPerDay]; omega
  refine ⟨?_, ?_⟩
  · rw [e, hs, hm]; decide
  · rw [e]
    simp only [TimeWithinDay, LocalTime, msPerDay]
    omega

/-! ## Auxiliary lemmas: banner counts -/

theorem bannerCounts_cons (b : ApiBanner) (l : List ApiBanner) :
    activeBannersCount (b :: l)
      = activeBannersCount l + (if b.status = "active" then 1 else 0) ∧
    inactiveBannersCount (b :: l)
      = inactiveBannersCount l + (if b.status = "inactive" then 1 else 0) := by
  constructor
  · by_cases h : b.status = "active" <;> simp [activeBannersCount, List.filter_cons, h]
  · by_cases h : b.status = "inactive" <;> simp [inactiveBannersCount, List.filter_cons, h]

theorem bannerStatus_cases (b : ApiBanner) :
    ((if b.status = "active" then 1 else 0 : Nat) = 1 ∧
      (if b.status = "inactive" then 1 else 0 : Nat) = 0 ∧ b.status = "active") ∨
    ((if b.status = "active" then 1 else 0 : Nat) = 0 ∧
      (if b.status = "inactive" then 1 else 0 : Nat) = 1 ∧ b.status = "inactive") ∨
    ((if b.status = "active" then 1 else 0 : Nat) = 0 ∧
      (if b.status = "inactive" then 1 else 0 : Nat) = 0 ∧
      ¬ (b.status = "active" ∨ b.status = "inactive")) := by
  by_cases ha : b.status = "active"
  · have hi : ¬ b.status = "inactive" := fun h => absurd (ha.symm.trans h) (by decide)
    exact Or.inl ⟨if_pos ha, if_neg hi, ha⟩
  · by_cases hi : b.status = "inactive"
    · exact Or.inr (Or.inl ⟨if_neg ha, if_pos hi, hi⟩)
    · exact Or.inr (Or.inr ⟨if_neg ha, if_neg hi, fun h => h.elim ha hi⟩)

theorem bannerCounts_le (l : List ApiBanner) :
    activeBannersCount l + inactiveBannersCount l ≤ l.length := by
  induction l with
  | nil => simp [activeBannersCount, inactiveBannersCount]
  | cons b l ih =>
    obtain ⟨h1, h2⟩ := bannerCounts_cons b l
    rw [h1, h2, List.length_cons]
    rcases bannerStatus_cases b with ⟨x, y, _⟩ | ⟨x, y, _⟩ | ⟨x, y, _⟩ <;> rw [x, y] <;> omega

theorem bannerCounts_eq_iff (l : List ApiBanner) :
    activeBannersCount l + inactiveBannersCount l = l.length ↔
      ∀ b ∈ l, b.status = "active" ∨ b.status = "inactive" := by
  induction l with
  | nil => simp [activeBannersCount, inactiveBannersCount]
  | cons b l ih =>
    obtain ⟨h1, h2⟩ := bannerCounts_cons b l
    have hle := bannerCounts_le l
    rw [h1, h2, List.length_cons, List.forall_mem_cons, ← ih]
    rcases bannerStatus_cases b with ⟨x, y, hs⟩ | ⟨x, y, hs⟩ | ⟨x, y, hs⟩
    · rw [x, y]
      constructor
      · intro h; exact ⟨Or.inl hs, by omega⟩
      · intro h; have := h.2; omega
    · rw [x, y]
      constructor
      · intro h; exact ⟨Or.inr hs, by omega⟩
      · intro h; have := h.2; omega
    · rw [x, y]
      constructor
      · intro h; omega
      · intro h; exact absurd h.1 hs

/-! ## Auxiliary lemmas: the banner and category lists -/

theorem includes_empty (s : String) : includes s "" = true := by
  simp only [includes, decide_eq_true_eq]
  exact List.nil_infix

theorem matchesFilter_all (toLowerCase : String → String) (searchTerm : String) (item : Item) :
    matchesFilter toLowerCase searchTerm "all" item
      = includes (toLowerCase item.name) (toLowerCase searchTerm) := by
  simp [matchesFilter]

theorem matchesFilter_active (toLowerCase : String → String) (searchTerm : String)
    (item : Item) :
    matchesFilter toLowerCase searchTerm "active" item
      = (includes (toLowerCase item.name) (toLowerCase searchTerm) && item.active) := by
  have h1 : ("active" == "all") = false := by decide
  have h2 : ("active" == "inactive") = false := by decide
  have h3 : ("active" == "active") = true := by decide
  simp only [matchesFilter, h1, h2, h3, Bool.false_or, Bool.true_and, Bool.false_and,
    Bool.or_false]

theorem matchesFilter_inactive (toLowerCase : String → String) (searchTerm : String)
    (item : Item) :
    matchesFilter toLowerCase searchTerm "inactive" item
      = (includes (toLowerCase item.name) (toLowerCase searchTerm) && !item.active) := by
  have h1 : ("inactive" == "all") = false := by decide
  have h2 : ("inactive" == "active") = false := by decide
  have h3 : ("inactive" == "inactive") = true := by decide
  simp only [matchesFilter, h1, h2, h3, Bool.false_or, Bool.true_and, Bool.false_and]

theorem filter_split_length (p : Item → Bool) (items : List Item) :
    (items.filter fun b => p b && b.active).length
      + (items.filter fun b => p b && !b.active).length
      = (items.filter p).length := by
  induction items with
  | nil => rfl
  | cons b l ih =>
    simp only [List.filter_cons]
    cases hp : p b <;> cases ha : b.active <;> simp [ih.symm] <;> omega

theorem fetchBanners_modal (typeError : String → String) (s : ListState)
    (outcome : FetchOutcome ApiBanner) :
    (BannerListComponent.fetchBanners typeError s outcome).showAddModal = s.showAddModal ∧
    (BannerListComponent.fetchBanners typeError s outcome).editing = s.editing ∧
    (BannerListComponent.fetchBanners typeError s outcome).formData = s.formData := by
  rcases outcome with m | _ | m | d
  · exact ⟨rfl, rfl, rfl⟩
  · exact ⟨rfl, rfl, rfl⟩
  · exact ⟨rfl, rfl, rfl⟩
  · cases d <;> exact ⟨rfl, rfl, rfl⟩

theorem fetchCategories_modal (typeError : String → String) (s : ListState)
    (outcome : FetchOutcome ApiCategory) :
    (CategoryListComponent.fetchCategories typeError s outcome).showAddModal = s.showAddModal ∧
    (CategoryListComponent.fetchCategories typeError s outcome).editing = s.editing ∧
    (CategoryListComponent.fetchCategories typeError s outcome).formData = s.formData := by
  rcases outcome with m | _ | m | d
  · exact ⟨rfl, rfl, rfl⟩
  · exact ⟨rfl, rfl, rfl⟩
  · exact ⟨rfl, rfl, rfl⟩
  · cases d <;> exact ⟨rfl, rfl, rfl⟩

theorem modalInvariant_of_eq (s s' : ListState) (h : modalInvariant s)
    (h1 : s'.showAddModal = s.showAddModal) (h2 : s'.editing = s.editing)
    (h3 : s'.formData = s.formData) : modalInvariant s' := by
  unfold modalInvariant at *
  rw [h1, h2, h3]
  exact h

theorem modalInvariant_closeModal (s : ListState) : modalInvariant (closeModal s) :=
  Or.inr ⟨rfl, rfl⟩

theorem bannerSave_state (apiBase : String) (typeError : String → String) (s : ListState)
    (save : SaveOutcome) (refetch : FetchOutcome ApiBanner) :
    (BannerListComponent.handleSave apiBase typeError s save refetch).state = s ∨
    (BannerListComponent.handleSave apiBase typeError s save refetch).state
      = closeModal (BannerListComponent.fetchBanners typeError s refetch) := by
  unfold BannerListComponent.handleSave
  split
  · exact Or.inl rfl
  · rcases save with m | ok
    · exact Or.inl rfl
    · cases ok
      · exact Or.inl rfl
      · exact Or.inr rfl

theorem categorySave_state (apiBase : String) (typeError : String → String) (s : ListState)
    (save : SaveOutcome) (refetch : FetchOutcome ApiCategory) :
    (CategoryListComponent.handleSave apiBase typeError s save refetch).state = s ∨
    (CategoryListComponent.handleSave apiBase typeError s save refetch).state
      = closeModal (CategoryListComponent.fetchCategories typeError s refetch) := by
  unfold CategoryListComponent.handleSave
  split
  · exact Or.inl rfl
  · rcases save with m | ok
    · exact Or.inl rfl
    · cases ok
      · exact Or.inl rfl
      · exact Or.inr rfl

theorem bannerStep_modalInvariant (apiBase : String) (typeError : String → String)
    (s : ListState) (action : Action ApiBanner) (h : modalInvariant s) :
    modalInvariant (BannerListComponent.step apiBase typeError s action) := by
  cases action with
  | fetched outcome =>
    obtain ⟨h1, h2, h3⟩ := fetchBanners_modal typeError s outcome
    exact modalInvariant_of_eq s _ h h1 h2 h3
  | setSearchTerm value => exact modalInvariant_of_eq s _ h rfl rfl rfl
  | setFilterStatus value => exact modalInvariant_of_eq s _ h rfl rfl rfl
  | openAddModal => exact Or.inl rfl
  | handleEdit item => exact Or.inl rfl
  | closeModal => exact modalInvariant_closeModal s
  | editForm formData =>
    simp only [BannerListComponent.step]
    by_cases hs : s.showAddModal = true
    · rw [if_pos hs]
      exact Or.inl hs
    · rw [if_neg hs]
      exact h
  | handleSave save refetch =>
    simp only [BannerListComponent.step]
    rcases bannerSave_state apiBase typeError s save refetch with e | e <;> rw [e]
    · exact h
    · exact modalInvariant_closeModal _
  | handleDelete confirmed outcome refetch =>
    simp only [BannerListComponent.step, BannerListComponent.handleDelete]
    obtain ⟨h1, h2, h3⟩ := fetchBanners_modal typeError s refetch
    split
    · split
      · exact modalInvariant_of_eq s _ h h1 h2 h3
      · exact h
    · exact h

theorem categoryStep_modalInvariant (apiBase : String) (typeError : String → String)
    (s : ListState) (action : Action ApiCategory) (h : modalInvariant s) :
    modalInvariant (CategoryListComponent.step apiBase typeError s action) := by
  cases action with
  | fetched outcome =>
    obtain ⟨h1, h2, h3⟩ := fetchCategories_modal typeError s outcome
    exact modalInvariant_of_eq s _ h h1 h2 h3
  | setSearchTerm value => exact modalInvariant_of_eq s _ h rfl rfl rfl
  | setFilterStatus value => exact modalInvariant_of_eq s _ h rfl rfl rfl
  | openAddModal => exact Or.inl rfl
  | handleEdit item => exact Or.inl rfl
  | closeModal => exact modalInvariant_closeModal s
  | editForm formData =>
    simp only [CategoryListComponent.step]
    by_cases hs : s.showAddModal = true
    · rw [if_pos hs]
      exact Or.inl hs
    · rw [if_neg hs]
      exact h
  | handleSave save refetch =>
    simp only [CategoryListComponent.step]
    rcases categorySave_state apiBase typeError s save refetch with e | e <;> rw [e]
    · exact h
    · exact modalInvariant_closeModal _
  | handleDelete confirmed outcome refetch =>
    simp only [CategoryListComponent.step, CategoryListComponent.handleDelete]
    obtain ⟨h1, h2, h3⟩ := fetchCategories_modal typeError s refetch
    split
    · split
      · exact modalInvariant_of_eq s _ h h1 h2 h3
      · exact h
    · exact h

theorem foldl_modalInvariant {α : Type} (step : ListState → Action α → ListState)
    (hstep : ∀ s a, modalInvariant s → modalInvariant (step s a)) (actions : List (Action α)) :
    ∀ s, modalInvariant s → modalInvariant (actions.foldl step s) := by
  induction actions with
  | nil => intro s h; exact h
  | cons a l ih => intro s h; exact ih _ (hstep s a h)

/-! ## The claims -/

/-- Claim C1. For a non-empty list of events and every bucket index i in 0..6,
bucket i of the computed lineChartData carries the label days[i], a thisWeek
count equal to the number of events e with
thisWeekStart ≤ e.fullDate < thisWeekStart + 7 days and
(getDay(e.fullDate) + 6) mod 7 = i, and a lastWeek count equal to the number of
events in [lastWeekStart, lastWeekStart + 7 days) with the same weekday index.
Events with an invalid date are counted on neither side, so the statement needs
no validity assumption. -/
theorem C1_bucket_counts (tz now : Int) (es : List Enquiry) (prev : List DayBucket) (i : Nat)
    (hne : es ≠ []) (hi : i < 7) :
    (trendEffectAt tz now es prev)[i]? =
      some { day := days.getD i "",
             thisWeek := es.countP fun e => inWindow (thisWeekStart tz now) e && onWeekday tz i e,
             lastWeek := es.countP fun e => inWindow (lastWeekStart tz now) e && onWeekday tz i e } := by
  rw [trendEffectAt_of_ne_nil tz now es prev hne]
  exact aggregate_getElem tz now es i hi

/-- Witness for C1: one enquiry dated 2025-12-23 on a UTC host, bucket 1. -/
theorem C1_bucket_counts_witness :
    ([⟨"1", "A", "9", "P", "23 Dec 2025", some 1766448000000⟩] : List Enquiry) ≠ [] ∧ 1 < 7 ∧
    (trendEffectAt 0 nowFixed [⟨"1", "A", "9", "P", "23 Dec 2025", some 1766448000000⟩] [])[1]? =
      some { day := days.getD 1 "",
             thisWeek := List.countP
               (fun e => inWindow (thisWeekStart 0 nowFixed) e && onWeekday 0 1 e)
               [⟨"1", "A", "9", "P", "23 Dec 2025", some 1766448000000⟩],
             lastWeek := List.countP
               (fun e => inWindow (lastWeekStart 0 nowFixed) e && onWeekday 0 1 e)
               [⟨"1", "A", "9", "P", "23 Dec 2025", some 1766448000000⟩] } :=
  ⟨by decide, by decide,
    C1_bucket_counts 0 nowFixed [⟨"1", "A", "9", "P", "23 Dec 2025", some 1766448000000⟩] [] 1
      (by decide) (by decide)⟩

/-- Counterexample for C2: with no enquiries the effect computes nothing, so
from the initial state lineChartData stays the empty array, not seven buckets. -/
theorem C2_counterexample :
    trendEffect 0 [] initialLineChartData = [] ∧
    ¬ ((trendEffect 0 [] initialLineChartData).length = 7 ∧
       (trendEffect 0 [] initialLineChartData).map DayBucket.day
         = ["Mon", "Tue", "Wed", "Thu", "Fri", "Sat", "Sun"]) := by
  decide

/-- Claim C2, amended. For every reference date and every non-empty list of
events the effect sets lineChartData to exactly 7 buckets labelled Mon, Tue, Wed,
Thu, Fri, Sat, Sun in that order; for the empty list it leaves lineChartData as
it was. -/
theorem C2_seven_buckets (tz now : Int) (es : List Enquiry) (prev : List DayBucket) :
    (es = [] ∧ trendEffectAt tz now es prev = prev) ∨
    (es ≠ [] ∧ (trendEffectAt tz now es prev).length = 7 ∧
      (trendEffectAt tz now es prev).map DayBucket.day
        = ["Mon", "Tue", "Wed", "Thu", "Fri", "Sat", "Sun"]) := by
  by_cases h : es = []
  · left
    subst h
    exact ⟨rfl, trendEffectAt_nil tz now prev⟩
  · right
    rw [trendEffectAt_of_ne_nil tz now es prev h, aggregate, computedData_eq]
    exact ⟨h, rfl, rfl⟩

/-- Claim C3. For every list of events, the sum of the thisWeek counts plus the
sum of the lastWeek counts plus the number of events in neither window equals
the number of events: for the buckets the effect body computes, and for the
lineChartData the effect leaves when started from the initial state. -/
theorem C3_conservation (tz now : Int) (es : List Enquiry) :
    (((aggregate tz now es).map DayBucket.thisWeek).sum
      + ((aggregate tz now es).map DayBucket.lastWeek).sum
      + es.countP (fun e =>
          !inWindow (thisWeekStart tz now) e && !inWindow (lastWeekStart tz now) e)
      = es.length) ∧
    (((trendEffectAt tz now es initialLineChartData).map DayBucket.thisWeek).sum
      + ((trendEffectAt tz now es initialLineChartData).map DayBucket.lastWeek).sum
      + es.countP (fun e =>
          !inWindow (thisWeekStart tz now) e && !inWindow (lastWeekStart tz now) e)
      = es.length) := by
  have key := countP_windows tz now es
  rw [← aggregate_thisWeek_sum, ← aggregate_lastWeek_sum] at key
  refine ⟨key, ?_⟩
  by_cases h : es = []
  · subst h
    simp [trendEffectAt, initialLineChartData]
  · rw [trendEffectAt_of_ne_nil tz now es _ h]
    exact key

/-- Claim C4. For every list of events, the sum of thisWeek over the buckets
equals the number of events whose timestamp t satisfies
thisWeekStart ≤ t < thisWeekStart + 7 days: for the buckets the effect body
computes, and for the lineChartData left by the effect from the initial state. -/
theorem C4_thisWeek_total (tz now : Int) (es : List Enquiry) :
    ((aggregate tz now es).map DayBucket.thisWeek).sum
      = es.countP (inWindow (thisWeekStart tz now)) ∧
    ((trendEffectAt tz now es initialLineChartData).map DayBucket.thisWeek).sum
      = es.countP (inWindow (thisWeekStart tz now)) := by
  refine ⟨aggregate_thisWeek_sum tz now es, ?_⟩
  by_cases h : es = []
  · subst h
    simp [trendEffectAt, initialLineChartData]
  · rw [trendEffectAt_of_ne_nil tz now es _ h]
    exact aggregate_thisWeek_sum tz now es

/-- Claim C5. Window bounds are half-open. Adding an event whose timestamp is
exactly thisWeekStart anywhere in the list raises the thisWeek total by one (in
the Monday bucket) and leaves the lastWeek total alone; adding an event whose
timestamp is exactly thisWeekEnd = thisWeekStart + 7 days changes no bucket at
all, neither thisWeek nor lastWeek. -/
theorem C5_half_open (tz now : Int) (pre post : List Enquiry) (prev : List DayBucket)
    (e1 e2 : Enquiry)
    (h1 : e1.fullDate = some (thisWeekStart tz now))
    (h2 : e2.fullDate = some (thisWeekEnd tz now)) :
    (((trendEffectAt tz now (pre ++ e1 :: post) prev).map DayBucket.thisWeek).sum
        = ((aggregate tz now (pre ++ post)).map DayBucket.thisWeek).sum + 1 ∧
     ((trendEffectAt tz now (pre ++ e1 :: post) prev).map DayBucket.lastWeek).sum
        = ((aggregate tz now (pre ++ post)).map DayBucket.lastWeek).sum ∧
     ((trendEffectAt tz now (pre ++ e1 :: post) prev)[0]?).map DayBucket.thisWeek
        = ((aggregate tz now (pre ++ post))[0]?).map (fun b => b.thisWeek + 1)) ∧
    trendEffectAt tz now (pre ++ e2 :: post) prev = aggregate tz now (pre ++ post) := by
  obtain ⟨s1, s2, s3⟩ := inWindow_at_start tz now e1 h1
  obtain ⟨t1, t2⟩ := inWindow_at_end tz now e2 h2
  have ne1 : pre ++ e1 :: post ≠ [] := by simp
  have ne2 : pre ++ e2 :: post ≠ [] := by simp
  rw [trendEffectAt_of_ne_nil tz now _ prev ne1, trendEffectAt_of_ne_nil tz now _ prev ne2]
  refine ⟨⟨?_, ?_, ?_⟩, ?_⟩
  · rw [aggregate_thisWeek_sum, aggregate_thisWeek_sum]
    simp only [List.countP_append, List.countP_cons, s1, if_true]
    omega
  · rw [aggregate_lastWeek_sum, aggregate_lastWeek_sum]
    simp only [List.countP_append, List.countP_cons, s2]
    simp
  · rw [aggregate_getElem tz now _ 0 (by decide), aggregate_getElem tz now _ 0 (by decide)]
    simp only [Option.map_some', List.countP_append, List.countP_cons, s1, s3, Bool.and_self,
      if_true]
    exact congrArg some (by omega)
  · apply aggregate_congr
    intro i _
    simp only [List.countP_append, List.countP_cons, t1, t2, Bool.false_and]
    simp

/-- Witness for C5: UTC host, hardcoded reference date; Monday 2025-12-22 00:00
and Monday 2025-12-29 00:00 in an otherwise empty list. -/
theorem C5_half_open_witness :
    (⟨"1", "A", "9", "P", "22 Dec 2025", some 1766361600000⟩ : Enquiry).fullDate
      = some (thisWeekStart 0 nowFixed) ∧
    (⟨"2", "B", "8", "Q", "29 Dec 2025", some 1766966400000⟩ : Enquiry).fullDate
      = some (thisWeekEnd 0 nowFixed) ∧
    ((((trendEffectAt 0 nowFixed
          ([] ++ ⟨"1", "A", "9", "P", "22 Dec 2025", some 1766361600000⟩ :: []) []).map
          DayBucket.thisWeek).sum
        = ((aggregate 0 nowFixed ([] ++ [])).map DayBucket.thisWeek).sum + 1 ∧
     ((trendEffectAt 0 nowFixed
          ([] ++ ⟨"1", "A", "9", "P", "22 Dec 2025", some 1766361600000⟩ :: []) []).map
          DayBucket.lastWeek).sum
        = ((aggregate 0 nowFixed ([] ++ [])).map DayBucket.lastWeek).sum ∧
     ((trendEffectAt 0 nowFixed
          ([] ++ ⟨"1", "A", "9", "P", "22 Dec 2025", some 1766361600000⟩ :: []) [])[0]?).map
          DayBucket.thisWeek
        = ((aggregate 0 nowFixed ([] ++ []))[0]?).map (fun b => b.thisWeek + 1)) ∧
    trendEffectAt 0 nowFixed
        ([] ++ ⟨"2", "B", "8", "Q", "29 Dec 2025", some 1766966400000⟩ :: []) []
      = aggregate 0 nowFixed ([] ++ [])) :=
  ⟨by decide, by decide,
    C5_half_open 0 nowFixed [] [] [] ⟨"1", "A", "9", "P", "22 Dec 2025", some 1766361600000⟩
      ⟨"2", "B", "8", "Q", "29 Dec 2025", some 1766966400000⟩ (by decide) (by decide)⟩

/-- Claim C6. For every reference date now, the back-offset (6 when getDay(now)
is 0, getDay(now) - 1 otherwise) lies in 0..6, and thisWeekStart is now moved
back by exactly that many calendar days: it falls on a Monday (getDay = 1), on a
calendar day at or before the calendar day of now and less than 7 days before it. -/
theorem C6_week_start_monday (tz now : Int) :
    0 ≤ backOffset (getDay tz now) ∧ backOffset (getDay tz now) ≤ 6 ∧
    thisWeekStart tz now = now - backOffset (getDay tz now) * msPerDay ∧
    getDay tz (thisWeekStart tz now) = 1 ∧
    Day (LocalTime tz (thisWeekStart tz now))
      = Day (LocalTime tz now) - backOffset (getDay tz now) ∧
    Day (LocalTime tz (thisWeekStart tz now)) ≤ Day (LocalTime tz now) ∧
    Day (LocalTime tz now) - Day (LocalTime tz (thisWeekStart tz now)) < 7 ∧
    thisWeekStart tz now ≤ now ∧ now - thisWeekStart tz now < 7 * msPerDay := by
  obtain ⟨h0, h6⟩ := backOffset_getDay_range tz now
  have hs := thisWeekStart_eq tz now
  have hd : Day (LocalTime tz (thisWeekStart tz now))
      = Day (LocalTime tz now) - backOffset (getDay tz now) := by
    rw [hs]
    simp only [Day, LocalTime, msPerDay]
    omega
  refine ⟨h0, h6, hs, getDay_thisWeekStart tz now, hd, ?_, ?_, ?_, ?_⟩
  · omega
  · omega
  · rw [hs]; simp only [msPerDay]; omega
  · rw [hs]; simp only [msPerDay]; omega

/-- Counterexample for C7: on a host in Asia/Kolkata (UTC+05:30) the hardcoded
reference date, parsed as UTC midnight, is 05:30 local time, and thisWeekStart
keeps that time of day: it is 19800000 ms after local midnight, not at 00:00. -/
theorem C7_counterexample :
    TimeWithinDay (LocalTime 19800000 (thisWeekStart 19800000 nowFixed)) = 19800000 ∧
    ¬ TimeWithinDay (LocalTime 19800000 (thisWeekStart 19800000 nowFixed)) = 0 := by
  decide

/-- Claim C7, amended. For every reference date now, thisWeekStart has the same
local time of day as now (setDate changes the calendar day only), so it is at
00:00 of its calendar day exactly when now is; the current-week window is
[thisWeekStart, thisWeekStart + 7 days), running from a Monday to the next
Monday at that same time of day. -/
theorem C7_time_of_day_kept (tz now : Int) :
    TimeWithinDay (LocalTime tz (thisWeekStart tz now)) = TimeWithinDay (LocalTime tz now) ∧
    (TimeWithinDay (LocalTime tz (thisWeekStart tz now)) = 0
      ↔ TimeWithinDay (LocalTime tz now) = 0) ∧
    getDay tz (thisWeekStart tz now) = 1 ∧
    thisWeekEnd tz now = thisWeekStart tz now + 7 * msPerDay ∧
    getDay tz (thisWeekEnd tz now) = 1 ∧
    TimeWithinDay (LocalTime tz (thisWeekEnd tz now)) = TimeWithinDay (LocalTime tz now) := by
  have hs := thisWeekStart_eq tz now
  have hm := getDay_thisWeekStart tz now
  have ht : TimeWithinDay (LocalTime tz (thisWeekStart tz now))
      = TimeWithinDay (LocalTime tz now) := by
    rw [hs]
    simp only [TimeWithinDay, LocalTime, msPerDay]
    omega
  refine ⟨ht, by rw [ht], hm, by simp only [thisWeekEnd, msPerDay]; omega, ?_, ?_⟩
  · have := getDay_sub_days tz (thisWeekStart tz now) (-7)
    have e : thisWeekEnd tz now = thisWeekStart tz now - (-7) * msPerDay := by
      simp only [thisWeekEnd, msPerDay]; omega
    rw [e, this, hm]
    decide
  · rw [← ht]
    simp only [thisWeekEnd, TimeWithinDay, LocalTime, msPerDay]
    omega

/-- Claim C8. For every reference date, lastWeekStart = thisWeekStart - 7 days,
thisWeekEnd = thisWeekStart + 7 days and lastWeekEnd = lastWeekStart + 7 days,
with 7 days = 7*24*60*60*1000 ms = 604800000 ms; hence lastWeekEnd =
thisWeekStart: the two windows are adjacent and each is exactly 7 days long.
These are the bounds the loop body compares against. -/
theorem C8_window_arithmetic (tz now : Int) :
    lastWeekStart tz now = thisWeekStart tz now - 7 * msPerDay ∧
    thisWeekEnd tz now = thisWeekStart tz now + 7 * msPerDay ∧
    lastWeekEnd tz now = lastWeekStart tz now + 7 * msPerDay ∧
    7 * msPerDay = 7 * 24 * 60 * 60 * 1000 ∧
    lastWeekEnd tz now = thisWeekStart tz now ∧
    thisWeekEnd tz now - thisWeekStart tz now = 604800000 ∧
    lastWeekEnd tz now - lastWeekStart tz now = 604800000 ∧
    (∀ (counts : List Nat × List Nat) (enq : Enquiry),
      countEnquiry tz (thisWeekStart tz now) (lastWeekStart tz now) counts enq =
        if dateGE enq.fullDate (thisWeekStart tz now) && dateLT enq.fullDate (thisWeekEnd tz now)
        then (increment counts.1 (adjustedDayIndex tz enq.fullDate), counts.2)
        else if dateGE enq.fullDate (lastWeekStart tz now)
            && dateLT enq.fullDate (lastWeekEnd tz now)
        then (counts.1, increment counts.2 (adjustedDayIndex tz enq.fullDate))
        else counts) := by
  refine ⟨?_, ?_, ?_, ?_, ?_, ?_, ?_, ?_⟩
  · simp only [lastWeekStart, msPerDay]; omega
  · simp only [thisWeekEnd, msPerDay]; omega
  · simp only [lastWeekEnd, msPerDay]; omega
  · decide
  · simp only [lastWeekEnd, lastWeekStart]; omega
  · simp only [thisWeekEnd]; omega
  · simp only [lastWeekEnd]; omega
  · intro counts enq
    rfl

/-- Claim C9. For every event and reference date, one run of the loop body on
the two 7-element counts arrays increments at most one counter: at least one of
the two arrays is untouched (no event is counted in both weeks), no counter
decreases and the total over all counters grows by at most one (so no two
weekday buckets are incremented), and unless the event lies in the current-week
or the previous-week window both arrays are unchanged. -/
theorem C9_at_most_one_counter (tz now : Int) (a b : List Nat) (e : Enquiry)
    (ha : a.length = 7) (hb : b.length = 7) :
    ((countEnquiry tz (thisWeekStart tz now) (lastWeekStart tz now) (a, b) e).1.length = 7 ∧
     (countEnquiry tz (thisWeekStart tz now) (lastWeekStart tz now) (a, b) e).2.length = 7) ∧
    ((countEnquiry tz (thisWeekStart tz now) (lastWeekStart tz now) (a, b) e).1 = a ∨
     (countEnquiry tz (thisWeekStart tz now) (lastWeekStart tz now) (a, b) e).2 = b) ∧
    (∀ i : Nat,
      a.getD i 0
        ≤ (countEnquiry tz (thisWeekStart tz now) (lastWeekStart tz now) (a, b) e).1.getD i 0 ∧
      b.getD i 0
        ≤ (countEnquiry tz (thisWeekStart tz now) (lastWeekStart tz now) (a, b) e).2.getD i 0) ∧
    (countEnquiry tz (thisWeekStart tz now) (lastWeekStart tz now) (a, b) e).1.sum
      + (countEnquiry tz (thisWeekStart tz now) (lastWeekStart tz now) (a, b) e).2.sum
      ≤ a.sum + b.sum + 1 ∧
    (inWindow (thisWeekStart tz now) e = true ∨ inWindow (lastWeekStart tz now) e = true ∨
      countEnquiry tz (thisWeekStart tz now) (lastWeekStart tz now) (a, b) e = (a, b)) := by
  rcases countEnquiry_cases tz (thisWeekStart tz now) (lastWeekStart tz now) a b e with
    ⟨hw, hr⟩ | ⟨_, hw, hr⟩ | ⟨_, _, hr⟩
  · rw [hr]
    have hs := increment_sum_le a (adjustedDayIndex tz e.fullDate)
    exact ⟨⟨by simp only [increment_length, ha], hb⟩, Or.inr rfl,
      fun i => ⟨increment_getD_mono a _ i, Nat.le_refl _⟩, by simp only; omega, Or.inl hw⟩
  · rw [hr]
    have hs := increment_sum_le b (adjustedDayIndex tz e.fullDate)
    exact ⟨⟨ha, by simp only [increment_length, hb]⟩, Or.inl rfl,
      fun i => ⟨Nat.le_refl _, increment_getD_mono b _ i⟩, by simp only; omega,
      Or.inr (Or.inl hw)⟩
  · rw [hr]
    exact ⟨⟨ha, hb⟩, Or.inl rfl, fun i => ⟨Nat.le_refl _, Nat.le_refl _⟩, by simp only; omega,
      Or.inr (Or.inr rfl)⟩

/-- Witness for C9: the fresh arrays of seven zeros and an enquiry dated
2025-12-24 12:00 UTC on a UTC host; the loop body turns thisWeekCounts into
[0, 0, 1, 0, 0, 0, 0] and leaves lastWeekCounts alone. -/
theorem C9_at_most_one_counter_witness :
    (List.replicate 7 0 : List Nat).length = 7 ∧
    countEnquiry 0 (thisWeekStart 0 nowFixed) (lastWeekStart 0 nowFixed)
        (List.replicate 7 0, List.replicate 7 0)
        ⟨"3", "C", "7", "R", "24 Dec 2025", some 1766577600000⟩
      = ([0, 0, 1, 0, 0, 0, 0], [0, 0, 0, 0, 0, 0, 0]) ∧
    (countEnquiry 0 (thisWeekStart 0 nowFixed) (lastWeekStart 0 nowFixed)
        (List.replicate 7 0, List.replicate 7 0)
        ⟨"3", "C", "7", "R", "24 Dec 2025", some 1766577600000⟩).1.sum
      + (countEnquiry 0 (thisWeekStart 0 nowFixed) (lastWeekStart 0 nowFixed)
        (List.replicate 7 0, List.replicate 7 0)
        ⟨"3", "C", "7", "R", "24 Dec 2025", some 1766577600000⟩).2.sum
      ≤ (List.replicate 7 0 : List Nat).sum + (List.replicate 7 0 : List Nat).sum + 1 :=
  ⟨by decide, by decide,
    (C9_at_most_one_counter 0 nowFixed (List.replicate 7 0) (List.replicate 7 0)
      ⟨"3", "C", "7", "R", "24 Dec 2025", some 1766577600000⟩ (by decide) (by decide)).2.2.2.1⟩

/-- Claim C10. The remapping adjustedDayIndex = (getDay + 6) mod 7 sends
Sunday=0 to 6, Monday=1 to 0, Tuesday=2 to 1, and so on up to Saturday=6 to 5; it
is a bijection of 0..6 onto itself, and the index computed for any valid date is
in 0..6. -/
theorem C10_adjusted_day_index :
    adjustDay 0 = 6 ∧ adjustDay 1 = 0 ∧ adjustDay 2 = 1 ∧ adjustDay 3 = 2 ∧
    adjustDay 4 = 3 ∧ adjustDay 5 = 4 ∧ adjustDay 6 = 5 ∧
    Set.BijOn adjustDay (Set.Icc 0 6) (Set.Icc 0 6) ∧
    (∀ tz t : Int, ∃ j : Int,
      adjustedDayIndex tz (some t) = some j ∧ j = (getDay tz t + 6) % 7 ∧ 0 ≤ j ∧ j ≤ 6) := by
  refine ⟨by decide, by decide, by decide, by decide, by decide, by decide, by decide,
    ⟨?_, ?_, ?_⟩, ?_⟩
  · intro x hx
    simp only [Set.mem_Icc, adjustDay] at hx ⊢
    omega
  · intro x hx y hy hxy
    simp only [Set.mem_Icc, adjustDay] at hx hy hxy
    omega
  · intro y hy
    simp only [Set.mem_Icc] at hy
    refine ⟨(y + 1) % 7, ?_, ?_⟩
    · simp only [Set.mem_Icc]; omega
    · simp only [adjustDay]; omega
  · intro tz t
    have hr := getDay_range tz t
    refine ⟨(getDay tz t + 6) % 7, rfl, rfl, ?_, ?_⟩ <;> omega

/-- Counterexample for C11: on a host in Asia/Kolkata, with no enquiries the
effect leaves the initial lineChartData, the empty array: there are no buckets,
and the chart is not rendered. -/
theorem C11_counterexample :
    trendEffect 19800000 [] initialLineChartData = [] ∧
    ¬ (trendEffect 19800000 [] initialLineChartData).length = 7 ∧
    chartShown true (trendEffect 19800000 [] initialLineChartData) = false := by
  decide

/-- Claim C11, amended. For the empty list of events and any reference date the
effect computes nothing and leaves lineChartData as it was; from the initial
state that is the empty array, for which the chart is not rendered and the chart
inputs fall back to the labels Mon..Sun and two all-zero series of length 7. The
computation of the effect body, applied to the empty list, gives 7 buckets with
thisWeek = 0 and lastWeek = 0. -/
theorem C11_empty_list (tz now : Int) (prev : List DayBucket) (isMounted : Bool) :
    trendEffectAt tz now [] prev = prev ∧
    trendEffectAt tz now [] initialLineChartData = [] ∧
    chartShown isMounted (trendEffectAt tz now [] initialLineChartData) = false ∧
    xaxisCategories (trendEffectAt tz now [] initialLineChartData)
      = ["Mon", "Tue", "Wed", "Thu", "Fri", "Sat", "Sun"] ∧
    lineChartSeries (trendEffectAt tz now [] initialLineChartData)
      = [⟨"This Week", [0, 0, 0, 0, 0, 0, 0]⟩, ⟨"Last Week", [0, 0, 0, 0, 0, 0, 0]⟩] ∧
    aggregate tz now [] =
      [⟨"Mon", 0, 0⟩, ⟨"Tue", 0, 0⟩, ⟨"Wed", 0, 0⟩, ⟨"Thu", 0, 0⟩, ⟨"Fri", 0, 0⟩,
       ⟨"Sat", 0, 0⟩, ⟨"Sun", 0, 0⟩] := by
  have h := trendEffectAt_nil tz now initialLineChartData
  rw [h]
  refine ⟨trendEffectAt_nil tz now prev, rfl, ?_, rfl, rfl, aggregate_nil tz now⟩
  cases isMounted <;> rfl

/-- Claim C12, evaluated on the code. With the hardcoded reference date and the
three events dated 2025-12-22, 2025-12-23 and 2025-12-15, a host at UTC or at
UTC+05:30 gives Mon = (1, 1), Tue = (1, 0) and zeros elsewhere; a host at
UTC-05:00 reads the reference date as a Sunday and gives Sun = (1, 1) and zeros
elsewhere. -/
theorem C12_example (prev : List DayBucket) :
    getDay (-18000000) nowFixed = 0 ∧
    thisWeekStart (-18000000) nowFixed = parseISODate 2025 12 16 ∧
    trendEffect (-18000000) exampleEnquiries prev =
      [⟨"Mon", 0, 0⟩, ⟨"Tue", 0, 0⟩, ⟨"Wed", 0, 0⟩, ⟨"Thu", 0, 0⟩, ⟨"Fri", 0, 0⟩,
       ⟨"Sat", 0, 0⟩, ⟨"Sun", 1, 1⟩] ∧
    getDay 0 nowFixed = 1 ∧ thisWeekStart 0 nowFixed = parseISODate 2025 12 22 ∧
    lastWeekStart 0 nowFixed = parseISODate 2025 12 15 ∧
    trendEffect 0 exampleEnquiries prev =
      [⟨"Mon", 1, 1⟩, ⟨"Tue", 1, 0⟩, ⟨"Wed", 0, 0⟩, ⟨"Thu", 0, 0⟩, ⟨"Fri", 0, 0⟩,
       ⟨"Sat", 0, 0⟩, ⟨"Sun", 0, 0⟩] ∧
    trendEffect 19800000 exampleEnquiries prev =
      [⟨"Mon", 1, 1⟩, ⟨"Tue", 1, 0⟩, ⟨"Wed", 0, 0⟩, ⟨"Thu", 0, 0⟩, ⟨"Fri", 0, 0⟩,
       ⟨"Sat", 0, 0⟩, ⟨"Sun", 0, 0⟩] := by
  have hne : exampleEnquiries ≠ [] := by decide
  simp only [trendEffect, trendEffectAt_of_ne_nil _ _ _ prev hne]
  decide

/-- Claim C13. Aggregation is additive, without deduplication: for non-empty
event lists xs and ys and the same reference date, each bucket of the result for
xs ++ ys has the label of the bucket for xs and thisWeek and lastWeek counts
equal to the sums of the counts for xs and for ys; and n copies of one event add
n to the bucket of its weekday in the week it falls in, and nothing elsewhere. -/
theorem C13_additive (tz now : Int) (xs ys : List Enquiry) (prev : List DayBucket) (i : Nat)
    (n : Nat) (e : Enquiry) (hx : xs ≠ []) (hy : ys ≠ []) (hi : i < 7) (hn : 0 < n) :
    (∃ bx bw bxy : DayBucket,
      (trendEffectAt tz now xs prev)[i]? = some bx ∧
      (trendEffectAt tz now ys prev)[i]? = some bw ∧
      (trendEffectAt tz now (xs ++ ys) prev)[i]? = some bxy ∧
      bxy.day = bx.day ∧ bxy.day = bw.day ∧
      bxy.thisWeek = bx.thisWeek + bw.thisWeek ∧
      bxy.lastWeek = bx.lastWeek + bw.lastWeek) ∧
    (trendEffectAt tz now (List.replicate n e) prev)[i]? =
      some { day := days.getD i "",
             thisWeek := if (inWindow (thisWeekStart tz now) e && onWeekday tz i e) = true
               then n else 0,
             lastWeek := if (inWindow (lastWeekStart tz now) e && onWeekday tz i e) = true
               then n else 0 } := by
  have hxy : xs ++ ys ≠ [] := by simp [hx]
  have hr : List.replicate n e ≠ [] := by
    intro h
    have := congrArg List.length h
    simp at this
    omega
  rw [trendEffectAt_of_ne_nil tz now xs prev hx, trendEffectAt_of_ne_nil tz now ys prev hy,
    trendEffectAt_of_ne_nil tz now _ prev hxy, trendEffectAt_of_ne_nil tz now _ prev hr,
    aggregate_getElem tz now xs i hi, aggregate_getElem tz now ys i hi,
    aggregate_getElem tz now (xs ++ ys) i hi, aggregate_getElem tz now _ i hi]
  refine ⟨⟨_, _, _, rfl, rfl, rfl, rfl, rfl, ?_, ?_⟩, ?_⟩
  · exact List.countP_append _ _ _
  · exact List.countP_append _ _ _
  · simp only [List.countP_replicate]

/-- Witness for C13: the example enquiries appended to themselves, bucket 0, and
three copies of the enquiry dated 2025-12-22, on a UTC host. -/
theorem C13_additive_witness :
    exampleEnquiries ≠ [] ∧ 0 < 7 ∧ 0 < 3 ∧
    ((∃ bx bw bxy : DayBucket,
      (trendEffectAt 0 nowFixed exampleEnquiries [])[0]? = some bx ∧
      (trendEffectAt 0 nowFixed exampleEnquiries [])[0]? = some bw ∧
      (trendEffectAt 0 nowFixed (exampleEnquiries ++ exampleEnquiries) [])[0]? = some bxy ∧
      bxy.day = bx.day ∧ bxy.day = bw.day ∧
      bxy.thisWeek = bx.thisWeek + bw.thisWeek ∧
      bxy.lastWeek = bx.lastWeek + bw.lastWeek) ∧
    (trendEffectAt 0 nowFixed
        (List.replicate 3 ⟨"1", "A", "1", "P", "22 Dec 2025", some 1766361600000⟩) [])[0]? =
      some { day := days.getD 0 "",
             thisWeek := if (inWindow (thisWeekStart 0 nowFixed)
                 ⟨"1", "A", "1", "P", "22 Dec 2025", some 1766361600000⟩
               && onWeekday 0 0 ⟨"1", "A", "1", "P", "22 Dec 2025", some 1766361600000⟩) = true
               then 3 else 0,
             lastWeek := if (inWindow (lastWeekStart 0 nowFixed)
                 ⟨"1", "A", "1", "P", "22 Dec 2025", some 1766361600000⟩
               && onWeekday 0 0 ⟨"1", "A", "1", "P", "22 Dec 2025", some 1766361600000⟩) = true
               then 3 else 0 }) :=
  ⟨by decide, by decide, by decide,
    C13_additive 0 nowFixed exampleEnquiries exampleEnquiries [] 0 3
      ⟨"1", "A", "1", "P", "22 Dec 2025", some 1766361600000⟩
      (by decide) (by decide) (by decide) (by decide)⟩

/-- Claim C14. The result does not depend on the order of the events: for every
event list and every permutation of it the effect yields the same lineChartData. -/
theorem C14_order_independent (tz now : Int) (es es' : List Enquiry) (prev : List DayBucket)
    (h : es.Perm es') :
    trendEffectAt tz now es prev = trendEffectAt tz now es' prev := by
  by_cases hne : es = []
  · subst hne
    rw [List.nil_perm.mp h]
  · have hne' : es' ≠ [] := fun h' => hne (by subst h'; exact List.perm_nil.mp h)
    rw [trendEffectAt_of_ne_nil tz now es prev hne, trendEffectAt_of_ne_nil tz now es' prev hne']
    exact aggregate_perm tz now es es' h

/-- Witness for C14: the example enquiries and the same list reversed. -/
theorem C14_order_independent_witness :
    exampleEnquiries.Perm exampleEnquiries.reverse ∧
    trendEffectAt 0 nowFixed exampleEnquiries []
      = trendEffectAt 0 nowFixed exampleEnquiries.reverse [] :=
  ⟨(List.reverse_perm exampleEnquiries).symm,
    C14_order_independent 0 nowFixed exampleEnquiries exampleEnquiries.reverse []
      (List.reverse_perm exampleEnquiries).symm⟩

/-- Counterexample for C15: after a run on the example enquiries, a run with the
empty list keeps the earlier buckets, whereas the same run from the initial
state gives the empty array, so the result depends on the earlier run; and the
same enquiries give different buckets on a UTC host and on a UTC-05:00 host. -/
theorem C15_counterexample :
    trendEffect 0 [] (trendEffect 0 exampleEnquiries initialLineChartData)
      ≠ trendEffect 0 [] initialLineChartData ∧
    trendEffect 0 exampleEnquiries initialLineChartData
      ≠ trendEffect (-18000000) exampleEnquiries initialLineChartData := by
  decide

/-- Claim C15, amended. For a given host time zone and a non-empty event list the
result of the effect is a function of the list and the reference date alone: it
is the value computed from zeroed counts, whatever lineChartData an earlier run
left, and the reference date is the hardcoded constant, not the current time.
For the empty list the effect leaves the lineChartData of the earlier run in
place. -/
theorem C15_pure_when_nonempty (tz now : Int) (es : List Enquiry) (prev prev' : List DayBucket) :
    ((es ≠ [] ∧ trendEffectAt tz now es prev = aggregate tz now es ∧
        trendEffectAt tz now es prev = trendEffectAt tz now es prev') ∨
      (es = [] ∧ trendEffectAt tz now es prev = prev ∧ trendEffectAt tz now es prev' = prev')) ∧
    weekCounts tz now [] = ([0, 0, 0, 0, 0, 0, 0], [0, 0, 0, 0, 0, 0, 0]) ∧
    trendEffect tz es prev = trendEffectAt tz (parseISODate 2025 12 22) es prev := by
  refine ⟨?_, rfl, rfl⟩
  by_cases h : es = []
  · right
    subst h
    exact ⟨rfl, trendEffectAt_nil tz now prev, trendEffectAt_nil tz now prev'⟩
  · left
    rw [trendEffectAt_of_ne_nil tz now es prev h, trendEffectAt_of_ne_nil tz now es prev' h]
    exact ⟨h, rfl, rfl⟩

/-- Claim C16. The aggregation raises no error for any finite event list: with
every array update checked against the bounds of the 7-element counts arrays the
loop still completes with the same result, the arrays keep length 7, and an
event with an invalid date fails both window tests and changes no counter. -/
theorem C16_no_error (tz now : Int) (es : List Enquiry) :
    weekCountsChecked tz now es = some (weekCounts tz now es) ∧
    (weekCounts tz now es).1.length = 7 ∧ (weekCounts tz now es).2.length = 7 ∧
    (∀ t : Int, ∃ j : Int, adjustedDayIndex tz (some t) = some j ∧ 0 ≤ j ∧ j.toNat < 7) ∧
    (∀ (counts : List Nat × List Nat) (id name phone product date : String) (start : Int),
      dateGE none start = false ∧ dateLT none start = false ∧
      countEnquiry tz (thisWeekStart tz now) (lastWeekStart tz now) counts
        ⟨id, name, phone, product, date, none⟩ = counts ∧
      countEnquiryChecked tz (thisWeekStart tz now) (lastWeekStart tz now) counts
        ⟨id, name, phone, product, date, none⟩ = some counts) := by
  obtain ⟨h1, h2, h3⟩ := foldlM_countEnquiryChecked tz (thisWeekStart tz now)
    (lastWeekStart tz now) es (List.replicate 7 0) (List.replicate 7 0) (by simp) (by simp)
  refine ⟨h1, h2, h3, ?_, ?_⟩
  · intro t
    obtain ⟨hj0, hj7⟩ := adjustDay_getDay_range tz t
    exact ⟨adjustDay (getDay tz t), rfl, hj0, by omega⟩
  · intro counts id name phone product date start
    exact ⟨rfl, rfl, rfl, rfl⟩

/-- Claim C17. In every reachable state of lineChartData the chart input
consists of the labels Mon..Sun and of the two series This Week and Last Week,
all of length exactly 7; the series are all zeros when lineChartData is empty,
and otherwise lineChartData has 7 buckets labelled Mon..Sun and entry i of each
series is the thisWeek, respectively lastWeek, count of bucket i. -/
theorem C17_chart_input (tz now : Int) (s : List DayBucket) (h : ReachableAt tz now s) :
    xaxisCategories s = ["Mon", "Tue", "Wed", "Thu", "Fri", "Sat", "Sun"] ∧
    (xaxisCategories s).length = 7 ∧
    ∃ tw lw : List Nat,
      lineChartSeries s = [⟨"This Week", tw⟩, ⟨"Last Week", lw⟩] ∧
      tw.length = 7 ∧ lw.length = 7 ∧
      ((s = [] ∧ tw = [0, 0, 0, 0, 0, 0, 0] ∧ lw = [0, 0, 0, 0, 0, 0, 0]) ∨
       (s.length = 7 ∧ s.map (fun d => d.day) = ["Mon", "Tue", "Wed", "Thu", "Fri", "Sat", "Sun"] ∧
        tw = s.map (fun d => d.thisWeek) ∧ lw = s.map (fun d => d.lastWeek) ∧
        ∀ i : Nat, i < 7 →
          tw[i]? = s[i]?.map (fun d => d.thisWeek) ∧
          lw[i]? = s[i]?.map (fun d => d.lastWeek))) := by
  rcases reachableAt_shape tz now s h with h0 | ⟨hlen, hday⟩
  · subst h0
    exact ⟨rfl, rfl, _, _, rfl, rfl, rfl, Or.inl ⟨rfl, rfl, rfl⟩⟩
  · have hpos : s.length > 0 := by omega
    refine ⟨?_, ?_, s.map (fun d => d.thisWeek), s.map (fun d => d.lastWeek), ?_, ?_, ?_,
      Or.inr ⟨hlen, hday, rfl, rfl, fun i _ => ⟨?_, ?_⟩⟩⟩
    · simp only [xaxisCategories, hpos, if_true, hday]
    · simp only [xaxisCategories, hpos, if_true, hday]
      rfl
    · simp only [lineChartSeries, hpos, if_true]
    · simp only [List.length_map, hlen]
    · simp only [List.length_map, hlen]
    · simp only [List.getElem?_map]
    · simp only [List.getElem?_map]

/-- Witness for C17: the state reached from the initial state by one run of the
effect on the example enquiries, on a UTC host. -/
theorem C17_chart_input_witness :
    ReachableAt 0 nowFixed (trendEffectAt 0 nowFixed exampleEnquiries initialLineChartData) ∧
    xaxisCategories (trendEffectAt 0 nowFixed exampleEnquiries initialLineChartData)
      = ["Mon", "Tue", "Wed", "Thu", "Fri", "Sat", "Sun"] ∧
    lineChartSeries (trendEffectAt 0 nowFixed exampleEnquiries initialLineChartData)
      = [⟨"This Week", [1, 1, 0, 0, 0, 0, 0]⟩, ⟨"Last Week", [1, 0, 0, 0, 0, 0, 0]⟩] :=
  ⟨ReachableAt.effect exampleEnquiries initialLineChartData ReachableAt.init,
    (C17_chart_input 0 nowFixed _
      (ReachableAt.effect exampleEnquiries initialLineChartData ReachableAt.init)).1,
    by decide⟩

/-- Claim C19. When thisWeekStart is at 00:00 local time (it is always a Monday),
every event counted in the current week is counted in the bucket whose index is
the number of whole days between thisWeekStart and its timestamp,
floor((t - thisWeekStart) / 24h), and every event counted in the previous week in
the bucket with index floor((t - lastWeekStart) / 24h): bucket i holds exactly
the events of the i-th 24-hour slot of each window. -/
theorem C19_bucket_is_day_slot (tz now : Int) (es : List Enquiry) (prev : List DayBucket)
    (i : Nat) (hmid : TimeWithinDay (LocalTime tz (thisWeekStart tz now)) = 0)
    (hne : es ≠ []) (hi : i < 7) :
    (trendEffectAt tz now es prev)[i]? =
      some { day := days.getD i "",
             thisWeek := es.countP (inDaySlot (thisWeekStart tz now) i),
             lastWeek := es.countP (inDaySlot (lastWeekStart tz now) i) } := by
  obtain ⟨hl1, hl2⟩ := lastWeekStart_monday tz now
  have e1 : (fun e => inWindow (thisWeekStart tz now) e && onWeekday tz i e)
      = inDaySlot (thisWeekStart tz now) i :=
    funext fun e => inDaySlot_eq tz _ i e (getDay_thisWeekStart tz now) hmid
  have e2 : (fun e => inWindow (lastWeekStart tz now) e && onWeekday tz i e)
      = inDaySlot (lastWeekStart tz now) i :=
    funext fun e => inDaySlot_eq tz _ i e hl1 (hl2.trans hmid)
  rw [trendEffectAt_of_ne_nil tz now es prev hne, aggregate_getElem tz now es i hi, e1, e2]

/-- Witness for C19: UTC host, hardcoded reference date, example enquiries,
bucket 1. -/
theorem C19_bucket_is_day_slot_witness :
    TimeWithinDay (LocalTime 0 (thisWeekStart 0 nowFixed)) = 0 ∧ exampleEnquiries ≠ [] ∧ 1 < 7 ∧
    (trendEffectAt 0 nowFixed exampleEnquiries [])[1]? =
      some { day := days.getD 1 "",
             thisWeek := exampleEnquiries.countP (inDaySlot (thisWeekStart 0 nowFixed) 1),
             lastWeek := exampleEnquiries.countP (inDaySlot (lastWeekStart 0 nowFixed) 1) } :=
  ⟨by decide, by decide, by decide,
    C19_bucket_is_day_slot 0 nowFixed exampleEnquiries [] 1 (by decide) (by decide) (by decide)⟩

/-- Claim C18. In fetchDashboardData, if at least one of the four responses
(categories, products, banners, enquiries) has a non-success status, the error
state becomes "One or more fetches failed", loading ends as false, and
categoriesCount, productsCount, activeBanners, inactiveBanners and enquiries are
left unchanged. -/
theorem C18_failed_status (parseDate : String → Option Int) (formatDate : Option Int → String)
    (typeError : String → String) (s : DashboardState) (res : Responses)
    (parsed : Except String Bodies)
    (h : res.categoriesOk = false ∨ res.productsOk = false ∨ res.allBannersOk = false ∨
      res.enquiriesOk = false) :
    fetchDashboardData parseDate formatDate typeError s (.ok res) parsed
      = { s with loading := false, error := some "One or more fetches failed" } ∧
    (fetchDashboardData parseDate formatDate typeError s (.ok res) parsed).error
      = some "One or more fetches failed" ∧
    (fetchDashboardData parseDate formatDate typeError s (.ok res) parsed).loading = false ∧
    (fetchDashboardData parseDate formatDate typeError s (.ok res) parsed).categoriesCount
      = s.categoriesCount ∧
    (fetchDashboardData parseDate formatDate typeError s (.ok res) parsed).productsCount
      = s.productsCount ∧
    (fetchDashboardData parseDate formatDate typeError s (.ok res) parsed).activeBanners
      = s.activeBanners ∧
    (fetchDashboardData parseDate formatDate typeError s (.ok res) parsed).inactiveBanners
      = s.inactiveBanners ∧
    (fetchDashboardData parseDate formatDate typeError s (.ok res) parsed).enquiries
      = s.enquiries := by
  have hc : (!res.categoriesOk || !res.productsOk || !res.allBannersOk || !res.enquiriesOk)
      = true := by
    rcases h with h | h | h | h <;> simp [h]
  have key : fetchDashboardData parseDate formatDate typeError s (.ok res) parsed
      = { s with loading := false, error := some "One or more fetches failed" } := by
    simp only [fetchDashboardData, tryBlock, hc, if_true]
  rw [key]
  exact ⟨rfl, rfl, rfl, rfl, rfl, rfl, rfl, rfl⟩

/-- Witness for C18: from the initial state, the products response has a
non-success status. -/
theorem C18_failed_status_witness :
    ((⟨true, false, true, true⟩ : Responses).categoriesOk = false ∨
      (⟨true, false, true, true⟩ : Responses).productsOk = false ∨
      (⟨true, false, true, true⟩ : Responses).allBannersOk = false ∨
      (⟨true, false, true, true⟩ : Responses).enquiriesOk = false) ∧
    fetchDashboardData (fun _ => none) (fun _ => "Invalid Date") (fun m => m) initialState
        (.ok ⟨true, false, true, true⟩) (.error "unused")
      = { initialState with loading := false, error := some "One or more fetches failed" } :=
  ⟨by decide,
    (C18_failed_status (fun _ => none) (fun _ => "Invalid Date") (fun m => m) initialState
      ⟨true, false, true, true⟩ (.error "unused") (by decide)).1⟩

/-- Claim C20. For every list of banners returned by the API, activeBannersCount
is the number of banners whose status is exactly "active" and
inactiveBannersCount the number whose status is exactly "inactive"; their sum is
at most the number of banners, with equality if and only if every banner has
status "active" or "inactive". After a fetch that succeeds these two counts are
the activeBanners and inactiveBanners states. -/
theorem C20_banner_counts (allBanners : List ApiBanner) :
    activeBannersCount allBanners
      = allBanners.countP (fun banner => decide (banner.status = "active")) ∧
    inactiveBannersCount allBanners
      = allBanners.countP (fun banner => decide (banner.status = "inactive")) ∧
    activeBannersCount allBanners + inactiveBannersCount allBanners ≤ allBanners.length ∧
    (activeBannersCount allBanners + inactiveBannersCount allBanners = allBanners.length ↔
      ∀ banner ∈ allBanners, banner.status = "active" ∨ banner.status = "inactive") ∧
    (∀ (parseDate : String → Option Int) (formatDate : Option Int → String)
        (typeError : String → String) (s : DashboardState) (categories products : Nat)
        (data : List ApiEnquiry) (wrapped : Bool),
      (fetchDashboardData parseDate formatDate typeError s (.ok ⟨true, true, true, true⟩)
          (.ok { categories := ⟨none, some categories⟩, products := ⟨none, some products⟩,
                 allBannersData :=
                   if wrapped then .wrapped allBanners else .bare allBanners,
                 allEnquiries := ⟨some data⟩ })).activeBanners
        = activeBannersCount allBanners ∧
      (fetchDashboardData parseDate formatDate typeError s (.ok ⟨true, true, true, true⟩)
          (.ok { categories := ⟨none, some categories⟩, products := ⟨none, some products⟩,
                 allBannersData :=
                   if wrapped then .wrapped allBanners else .bare allBanners,
                 allEnquiries := ⟨some data⟩ })).inactiveBanners
        = inactiveBannersCount allBanners) := by
  refine ⟨?_, ?_, bannerCounts_le allBanners, bannerCounts_eq_iff allBanners, ?_⟩
  · rw [activeBannersCount, List.countP_eq_length_filter]
    rfl
  · rw [inactiveBannersCount, List.countP_eq_length_filter]
    rfl
  · intro parseDate formatDate typeError s categories products data wrapped
    cases wrapped <;> exact ⟨rfl, rfl⟩

/-- Claim C21. In the banner list and the category list, for every item list and
search term, the displayed list is the order-preserving sublist of the items
whose lower-cased name contains the lower-cased search term and whose active
flag matches the filter ("all": any, "active": active, "inactive": not active);
with filter "all" and an empty search term it is the whole list, and for any
search term the lengths of the "active" and "inactive" results sum to the
length of the "all" result. The lower-casing function is the host's; it maps the
empty string to the empty string. -/
theorem C21_filtered_lists (toLowerCase : String → String) (items : List Item)
    (searchTerm : String) (hempty : toLowerCase "" = "") :
    filteredBanners toLowerCase items searchTerm "all"
      = items.filter (fun b => includes (toLowerCase b.name) (toLowerCase searchTerm)) ∧
    filteredBanners toLowerCase items searchTerm "active"
      = items.filter (fun b =>
          includes (toLowerCase b.name) (toLowerCase searchTerm) && b.active) ∧
    filteredBanners toLowerCase items searchTerm "inactive"
      = items.filter (fun b =>
          includes (toLowerCase b.name) (toLowerCase searchTerm) && !b.active) ∧
    (∀ filterStatus : String,
      (filteredBanners toLowerCase items searchTerm filterStatus).Sublist items) ∧
    filteredBanners toLowerCase items "" "all" = items ∧
    (filteredBanners toLowerCase items searchTerm "active").length
      + (filteredBanners toLowerCase items searchTerm "inactive").length
      = (filteredBanners toLowerCase items searchTerm "all").length ∧
    (∀ filterStatus : String,
      filteredCategories toLowerCase items searchTerm filterStatus
        = filteredBanners toLowerCase items searchTerm filterStatus) := by
  have hall : filteredBanners toLowerCase items searchTerm "all"
      = items.filter (fun b => includes (toLowerCase b.name) (toLowerCase searchTerm)) := by
    simp only [filteredBanners]
    exact congrArg (fun p => items.filter p) (funext (matchesFilter_all toLowerCase searchTerm))
  have hact : filteredBanners toLowerCase items searchTerm "active"
      = items.filter (fun b =>
          includes (toLowerCase b.name) (toLowerCase searchTerm) && b.active) := by
    simp only [filteredBanners]
    exact congrArg (fun p => items.filter p)
      (funext (matchesFilter_active toLowerCase searchTerm))
  have hina : filteredBanners toLowerCase items searchTerm "inactive"
      = items.filter (fun b =>
          includes (toLowerCase b.name) (toLowerCase searchTerm) && !b.active) := by
    simp only [filteredBanners]
    exact congrArg (fun p => items.filter p)
      (funext (matchesFilter_inactive toLowerCase searchTerm))
  refine ⟨hall, hact, hina, fun _ => List.filter_sublist _, ?_, ?_, fun _ => rfl⟩
  · have : matchesFilter toLowerCase "" "all" = fun _ => true := by
      funext b
      rw [matchesFilter_all, hempty, includes_empty]
    simp only [filteredBanners, this, List.filter_true]
  · rw [hall, hact, hina]
    exact filter_split_length _ items

/-- Witness for C21: ASCII lower-casing, two items, search term "go". -/
theorem C21_filtered_lists_witness :
    (fun s : String => String.mk (s.data.map Char.toLower)) "" = "" ∧
    filteredBanners (fun s : String => String.mk (s.data.map Char.toLower))
        [⟨"1", "Gold Ring", "a.png", true⟩, ⟨"2", "Silver", "b.png", false⟩] "GO" "all"
      = [⟨"1", "Gold Ring", "a.png", true⟩] ∧
    (filteredBanners (fun s : String => String.mk (s.data.map Char.toLower))
        [⟨"1", "Gold Ring", "a.png", true⟩, ⟨"2", "Silver", "b.png", false⟩] "GO" "active").length
      + (filteredBanners (fun s : String => String.mk (s.data.map Char.toLower))
        [⟨"1", "Gold Ring", "a.png", true⟩, ⟨"2", "Silver", "b.png", false⟩] "GO"
          "inactive").length
      = (filteredBanners (fun s : String => String.mk (s.data.map Char.toLower))
        [⟨"1", "Gold Ring", "a.png", true⟩, ⟨"2", "Silver", "b.png", false⟩] "GO" "all").length :=
  ⟨rfl, by decide,
    (C21_filtered_lists (fun s : String => String.mk (s.data.map Char.toLower))
      [⟨"1", "Gold Ring", "a.png", true⟩, ⟨"2", "Silver", "b.png", false⟩] "GO" rfl).2.2.2.2.2.1⟩

/-- Counterexample for C22: a banner fetched with status "active" and an empty
image; after handleEdit, handleSave with the unchanged form sends no request at
all (it alerts instead). -/
theorem C22_counterexample :
    (BannerListComponent.handleSave "https://api.example" (fun m => m)
        (handleEdit (BannerListComponent.mapBanner ⟨"b1", "Sale", "", "active"⟩)
          initialListState)
        (.response true) (.body (some []))).requests = [] ∧
    (BannerListComponent.handleSave "https://api.example" (fun m => m)
        (handleEdit (BannerListComponent.mapBanner ⟨"b1", "Sale", "", "active"⟩)
          initialListState)
        (.response true) (.body (some []))).alerts = ["Please fill name and upload image"] := by
  decide

/-- Claim C22, amended. Status round trip: for a banner or category fetched with
backend status s whose name and image are non-empty, mapping it to the active
flag, loading it into the form with handleEdit and saving the unchanged form
sends, as first request, a PUT addressed to the same item's id whose body has
status s when s is "active" or "inactive" and status "inactive" for every other
s; when the name or the image is empty no request is sent. -/
theorem C22_status_round_trip (apiBase : String) (typeError : String → String) (s : ListState)
    (save : SaveOutcome) (ban : ApiBanner) (refetchB : FetchOutcome ApiBanner)
    (cat : ApiCategory) (refetchC : FetchOutcome ApiCategory) :
    (((ban.bannerName = "" ∨ ban.image = "") ∧
        (BannerListComponent.handleSave apiBase typeError
          (handleEdit (BannerListComponent.mapBanner ban) s) save refetchB).requests = []) ∨
      (ban.bannerName ≠ "" ∧ ban.image ≠ "" ∧
        ∃ (body : BannerBody) (rest : List (Request BannerBody)),
          (BannerListComponent.handleSave apiBase typeError
            (handleEdit (BannerListComponent.mapBanner ban) s) save refetchB).requests
            = { method := "PUT", url := apiBase ++ "/banners/" ++ ban.id, body := some body }
                :: rest ∧
          ((ban.status = "active" ∧ body.status = "active") ∨
           (ban.status = "inactive" ∧ body.status = "inactive") ∨
           (ban.status ≠ "active" ∧ ban.status ≠ "inactive" ∧ body.status = "inactive")))) ∧
    (((cat.categoryName = "" ∨ cat.image = "") ∧
        (CategoryListComponent.handleSave apiBase typeError
          (handleEdit (CategoryListComponent.mapCategory cat) s) save refetchC).requests = []) ∨
      (cat.categoryName ≠ "" ∧ cat.image ≠ "" ∧
        ∃ (body : CategoryBody) (rest : List (Request CategoryBody)),
          (CategoryListComponent.handleSave apiBase typeError
            (handleEdit (CategoryListComponent.mapCategory cat) s) save refetchC).requests
            = { method := "PUT", url := apiBase ++ "/categories/" ++ cat.id, body := some body }
                :: rest ∧
          ((cat.status = "active" ∧ body.status = "active") ∨
           (cat.status = "inactive" ∧ body.status = "inactive") ∨
           (cat.status ≠ "active" ∧ cat.status ≠ "inactive" ∧ body.status = "inactive")))) := by
  constructor
  · by_cases hv : ban.bannerName = "" ∨ ban.image = ""
    · left
      refine ⟨hv, ?_⟩
      simp only [BannerListComponent.handleSave, handleEdit, BannerListComponent.mapBanner, hv,
        if_true]
    · right
      have hst : ((ban.status = "active" ∧
            (if (ban.status == "active") = true then "active" else "inactive") = "active") ∨
          (ban.status = "inactive" ∧
            (if (ban.status == "active") = true then "active" else "inactive") = "inactive") ∨
          (ban.status ≠ "active" ∧ ban.status ≠ "inactive" ∧
            (if (ban.status == "active") = true then "active" else "inactive") = "inactive")) := by
        by_cases ha : ban.status = "active"
        · left
          exact ⟨ha, by simp [ha]⟩
        · by_cases hi : ban.status = "inactive"
          · right; left
            exact ⟨hi, by simp [ha]⟩
          · right; right
            exact ⟨ha, hi, by simp [ha]⟩
      refine ⟨fun h => hv (Or.inl h), fun h => hv (Or.inr h), ?_⟩
      simp only [BannerListComponent.handleSave, handleEdit, BannerListComponent.mapBanner, hv,
        if_false]
      rcases save with m | ok
      · exact ⟨_, [], rfl, hst⟩
      · cases ok
        · exact ⟨_, [], rfl, hst⟩
        · exact ⟨_, _, rfl, hst⟩
  · by_cases hv : cat.categoryName = "" ∨ cat.image = ""
    · left
      refine ⟨hv, ?_⟩
      simp only [CategoryListComponent.handleSave, handleEdit,
        CategoryListComponent.mapCategory, hv, if_true]
    · right
      have hst : ((cat.status = "active" ∧
            (if (cat.status == "active") = true then "active" else "inactive") = "active") ∨
          (cat.status = "inactive" ∧
            (if (cat.status == "active") = true then "active" else "inactive") = "inactive") ∨
          (cat.status ≠ "active" ∧ cat.status ≠ "inactive" ∧
            (if (cat.status == "active") = true then "active" else "inactive") = "inactive")) := by
        by_cases ha : cat.status = "active"
        · left
          exact ⟨ha, by simp [ha]⟩
        · by_cases hi : cat.status = "inactive"
          · right; left
            exact ⟨hi, by simp [ha]⟩
          · right; right
            exact ⟨ha, hi, by simp [ha]⟩
      refine ⟨fun h => hv (Or.inl h), fun h => hv (Or.inr h), ?_⟩
      simp only [CategoryListComponent.handleSave, handleEdit,
        CategoryListComponent.mapCategory, hv, if_false]
      rcases save with m | ok
      · exact ⟨_, [], rfl, hst⟩
      · cases ok
        · exact ⟨_, [], rfl, hst⟩
        · exact ⟨_, _, rfl, hst⟩

/-- Claim C23. In both list components, handleSave with a form whose name is
empty or whose image is empty issues no request, alerts, and leaves the whole
state (item list, modal visibility, editing target, formData) unchanged; when
both fields are non-empty its first request is a POST or a PUT carrying the
body. So a POST or PUT is issued exactly when both fields are non-empty. -/
theorem C23_save_validation (apiBase : String) (typeError : String → String) (s : ListState)
    (save : SaveOutcome) (refetchB : FetchOutcome ApiBanner)
    (refetchC : FetchOutcome ApiCategory) :
    (((s.formData.name = "" ∨ s.formData.image = "") ∧
        BannerListComponent.handleSave apiBase typeError s save refetchB
          = { state := s, requests := [], alerts := ["Please fill name and upload image"] }) ∨
      (s.formData.name ≠ "" ∧ s.formData.image ≠ "" ∧
        ∃ (req : Request BannerBody) (rest : List (Request BannerBody)),
          (BannerListComponent.handleSave apiBase typeError s save refetchB).requests
            = req :: rest ∧
          (req.method = "POST" ∨ req.method = "PUT") ∧ req.body ≠ none ∧
          (rest = [] ∨ rest = [{ method := "GET", url := apiBase ++ "/banners", body := none }]))) ∧
    (((s.formData.name = "" ∨ s.formData.image = "") ∧
        CategoryListComponent.handleSave apiBase typeError s save refetchC
          = { state := s, requests := [], alerts := ["Please fill in all fields"] }) ∨
      (s.formData.name ≠ "" ∧ s.formData.image ≠ "" ∧
        ∃ (req : Request CategoryBody) (rest : List (Request CategoryBody)),
          (CategoryListComponent.handleSave apiBase typeError s save refetchC).requests
            = req :: rest ∧
          (req.method = "POST" ∨ req.method = "PUT") ∧ req.body ≠ none ∧
          (rest = [] ∨
            rest = [{ method := "GET", url := apiBase ++ "/categories", body := none }]))) := by
  by_cases hv : s.formData.name = "" ∨ s.formData.image = ""
  · constructor
    · left
      refine ⟨hv, ?_⟩
      simp only [BannerListComponent.handleSave, hv, if_true]
    · left
      refine ⟨hv, ?_⟩
      simp only [CategoryListComponent.handleSave, hv, if_true]
  · have hn : s.formData.name ≠ "" := fun h => hv (Or.inl h)
    have hi : s.formData.image ≠ "" := fun h => hv (Or.inr h)
    constructor
    · right
      refine ⟨hn, hi, ?_⟩
      simp only [BannerListComponent.handleSave, hv, if_false]
      cases s.editing <;> rcases save with m | ok
      · exact ⟨_, _, rfl, Or.inl rfl, by simp, Or.inl rfl⟩
      · cases ok
        · exact ⟨_, _, rfl, Or.inl rfl, by simp, Or.inl rfl⟩
        · exact ⟨_, _, rfl, Or.inl rfl, by simp, Or.inr rfl⟩
      · exact ⟨_, _, rfl, Or.inr rfl, by simp, Or.inl rfl⟩
      · cases ok
        · exact ⟨_, _, rfl, Or.inr rfl, by simp, Or.inl rfl⟩
        · exact ⟨_, _, rfl, Or.inr rfl, by simp, Or.inr rfl⟩
    · right
      refine ⟨hn, hi, ?_⟩
      simp only [CategoryListComponent.handleSave, hv, if_false]
      cases s.editing <;> rcases save with m | ok
      · exact ⟨_, _, rfl, Or.inl rfl, by simp, Or.inl rfl⟩
      · cases ok
        · exact ⟨_, _, rfl, Or.inl rfl, by simp, Or.inl rfl⟩
        · exact ⟨_, _, rfl, Or.inl rfl, by simp, Or.inr rfl⟩
      · exact ⟨_, _, rfl, Or.inr rfl, by simp, Or.inl rfl⟩
      · cases ok
        · exact ⟨_, _, rfl, Or.inr rfl, by simp, Or.inl rfl⟩
        · exact ⟨_, _, rfl, Or.inr rfl, by simp, Or.inr rfl⟩

/-- Claim C24, evaluated on the code. With the form { name: " ", image:
"img.png", active: true } and no editing target, the banner handleSave passes
its emptiness check and sends a POST whose bannerName is the trimmed name, the
empty string. In general the body carries the trimmed name and the image of the
form, whose untrimmed name and image are non-empty; the category handleSave
sends the name untrimmed, hence non-empty. -/
theorem C24_whitespace_name (apiBase : String) (typeError : String → String)
    (s : ListState) (save : SaveOutcome) (refetchB : FetchOutcome ApiBanner)
    (refetchC : FetchOutcome ApiCategory) :
    (BannerListComponent.handleSave apiBase typeError
        { initialListState with formData := { name := " ", image := "img.png", active := true } }
        save refetchB).requests.head?
      = some { method := "POST", url := apiBase ++ "/banners",
               body := some { bannerName := "", image := "img.png", status := "active" } } ∧
    (∀ (req : Request BannerBody) (body : BannerBody),
      req ∈ (BannerListComponent.handleSave apiBase typeError s save refetchB).requests ∧
        req.body = some body →
      body.bannerName = trim s.formData.name ∧ body.image = s.formData.image ∧
        s.formData.name ≠ "" ∧ body.image ≠ "") ∧
    (∀ (req : Request CategoryBody) (body : CategoryBody),
      req ∈ (CategoryListComponent.handleSave apiBase typeError s save refetchC).requests ∧
        req.body = some body →
      body.categoryName ≠ "" ∧ body.image ≠ "") := by
  refine ⟨?_, ?_, ?_⟩
  · have ht : trim " " = "" := by decide
    rcases save with m | ok
    · simp only [BannerListComponent.handleSave, initialListState]
      rw [ht]
      rfl
    · cases ok <;>
      · simp only [BannerListComponent.handleSave, initialListState]
        rw [ht]
        rfl
  · rintro req body ⟨hmem, hbody⟩
    by_cases hv : s.formData.name = "" ∨ s.formData.image = ""
    · simp only [BannerListComponent.handleSave, hv, if_true, List.not_mem_nil] at hmem
    · have hn : s.formData.name ≠ "" := fun h => hv (Or.inl h)
      have hi : s.formData.image ≠ "" := fun h => hv (Or.inr h)
      simp only [BannerListComponent.handleSave, hv, if_false] at hmem
      have hreq : req.body = some ⟨trim s.formData.name, s.formData.image,
          if s.formData.active then "active" else "inactive"⟩ ∨ req.body = none := by
        cases hed : s.editing <;> rcases save with m | ok <;> simp only [hed] at hmem
        all_goals first
          | (simp only [List.mem_singleton] at hmem; subst hmem; exact Or.inl rfl)
          | (cases ok <;> simp only [List.mem_cons, List.mem_singleton, List.not_mem_nil,
              or_false] at hmem
             · subst hmem; exact Or.inl rfl
             · rcases hmem with h | h <;> subst h
               · exact Or.inl rfl
               · exact Or.inr rfl)
      rcases hreq with h | h
      · rw [h] at hbody
        cases hbody
        exact ⟨rfl, rfl, hn, hi⟩
      · rw [h] at hbody
        cases hbody
  · rintro req body ⟨hmem, hbody⟩
    by_cases hv : s.formData.name = "" ∨ s.formData.image = ""
    · simp only [CategoryListComponent.handleSave, hv, if_true, List.not_mem_nil] at hmem
    · have hn : s.formData.name ≠ "" := fun h => hv (Or.inl h)
      have hi : s.formData.image ≠ "" := fun h => hv (Or.inr h)
      simp only [CategoryListComponent.handleSave, hv, if_false] at hmem
      have hreq : req.body = some ⟨s.formData.name, s.formData.image,
          if s.formData.active then "active" else "inactive"⟩ ∨ req.body = none := by
        cases hed : s.editing <;> rcases save with m | ok <;> simp only [hed] at hmem
        all_goals first
          | (simp only [List.mem_singleton] at hmem; subst hmem; exact Or.inl rfl)
          | (cases ok <;> simp only [List.mem_cons, List.mem_singleton, List.not_mem_nil,
              or_false] at hmem
             · subst hmem; exact Or.inl rfl
             · rcases hmem with h | h <;> subst h
               · exact Or.inl rfl
               · exact Or.inr rfl)
      rcases hreq with h | h
      · rw [h] at hbody
        cases hbody
        exact ⟨hn, hi⟩
      · rw [h] at hbody
        cases hbody

/-- Claim C25. Modal state invariant of the banner and category lists: in every
state reached from the initial state by any sequence of events (openAddModal,
handleEdit, closeModal, handleSave whatever its outcome, form edits made while
the modal is shown, and also fetch completions, search and filter changes and
handleDelete), the modal is shown or else the editing target is null and
formData is the default object; and the editing target is null or the modal is
shown. -/
theorem C25_modal_invariant (apiBase : String) (typeError : String → String)
    (bannerActions : List (Action ApiBanner)) (categoryActions : List (Action ApiCategory)) :
    ((BannerListComponent.run apiBase typeError bannerActions).showAddModal = true ∨
      ((BannerListComponent.run apiBase typeError bannerActions).editing = none ∧
       (BannerListComponent.run apiBase typeError bannerActions).formData
         = { name := "", image := "", active := true })) ∧
    ((BannerListComponent.run apiBase typeError bannerActions).editing = none ∨
      (BannerListComponent.run apiBase typeError bannerActions).showAddModal = true) ∧
    ((CategoryListComponent.run apiBase typeError categoryActions).showAddModal = true ∨
      ((CategoryListComponent.run apiBase typeError categoryActions).editing = none ∧
       (CategoryListComponent.run apiBase typeError categoryActions).formData
         = { name := "", image := "", active := true })) ∧
    ((CategoryListComponent.run apiBase typeError categoryActions).editing = none ∨
      (CategoryListComponent.run apiBase typeError categoryActions).showAddModal = true) := by
  have h0 : modalInvariant initialListState := Or.inr ⟨rfl, rfl⟩
  have hb : modalInvariant (BannerListComponent.run apiBase typeError bannerActions) :=
    foldl_modalInvariant _ (bannerStep_modalInvariant apiBase typeError) bannerActions _ h0
  have hc : modalInvariant (CategoryListComponent.run apiBase typeError categoryActions) :=
    foldl_modalInvariant _ (categoryStep_modalInvariant apiBase typeError) categoryActions _ h0
  refine ⟨hb, ?_, hc, ?_⟩
  · rcases hb with h | ⟨h, _⟩
    · exact Or.inr h
    · exact Or.inl h
  · rcases hc with h | ⟨h, _⟩
    · exact Or.inr h
    · exact Or.inl h

end AdminDashboard
